import Mathlib

/-!
# A verification model of the Gato Garage progression and economy engine

Shallow embedding of the game's core state and operations, translated from
the JavaScript source.  Conventions used throughout:

* JavaScript numbers are modelled exactly: quantities that are always
  integers in the source (currency, XP, levels, costs, timestamps in ms)
  become `Nat`; quantities that carry fractional values (multipliers,
  bonus rates, repair progress contributed by workers) become `Rat`.
  `Math.floor` on a non-negative quantity is `Nat.floor`.
* `Date.now()` and `performance.now()` are modelled by explicit `now`
  parameters; `Math.random`-dependent contract generation is modelled by
  an oracle `gen : Nat -> Contract` supplied by the caller.
* String-valued cosmetic fields (names, colors, labels, flavor text,
  sprites) are omitted; entity and contract identifiers become `Nat` or
  dedicated enumeration types.
* The JavaScript `x || d` idiom on numbers is modelled as
  `if x = 0 then d else x`; on objects and arrays that are always present
  it is the identity and is modelled as such.
-/

namespace GatoGarage

/-! ## Static data: cars (src/js/data/cars.js) -/

/-- Identifier of a car type, one per entry of `CarData`. -/
inductive CarId where
  | hatchback | sedan | suv | pickup | sportsCar | vintage | cyberCar | hypercar
  deriving DecidableEq

/-- Rarity of a car type. -/
inductive Rarity where
  | common | uncommon | rare | legendary
  deriving DecidableEq

/-- Static definition of a car type (repair points needed, payment on
completion, rarity, spawn weight). -/
structure CarDef where
  repairCost : Nat
  baseValue : Nat
  rarity : Rarity
  weight : Nat
  deriving DecidableEq

/-- The `CarData` table. -/
def CarData : CarId → CarDef
  | .hatchback => ⟨50, 25, .common, 30⟩
  | .sedan => ⟨100, 50, .common, 25⟩
  | .suv => ⟨200, 120, .common, 20⟩
  | .pickup => ⟨300, 180, .uncommon, 12⟩
  | .sportsCar => ⟨500, 350, .uncommon, 8⟩
  | .vintage => ⟨800, 600, .rare, 4⟩
  | .cyberCar => ⟨1500, 1200, .rare, 2⟩
  | .hypercar => ⟨3000, 2500, .legendary, 1⟩

/-! ## Static data: workers (WorkerData) -/

/-- Identifier of a worker type, one per entry of `WorkerData`. -/
inductive WorkerId where
  | juniorMaid | seniorMaid | masterMaid | gearhead | roboMaid | legendaryMaid
  deriving DecidableEq

/-- Static definition of a worker type. -/
structure WorkerDef where
  baseCost : Nat
  repairRate : Rat
  costGrowth : Rat
  deriving DecidableEq

/-- The `WorkerData` table. -/
def WorkerData : WorkerId → WorkerDef
  | .juniorMaid => ⟨50, 1, 1.15⟩
  | .seniorMaid => ⟨500, 5, 1.14⟩
  | .masterMaid => ⟨5000, 25, 1.13⟩
  | .gearhead => ⟨50000, 100, 1.12⟩
  | .roboMaid => ⟨500000, 500, 1.11⟩
  | .legendaryMaid => ⟨10000000, 5000, 1.10⟩

/-! ## Static data: upgrades and Nip upgrades
(src/js/data/upgrades.js and the Nip upgrade table) -/

/-- A single typed upgrade effect (the `effect.type` / `effect.value`
pairs of the upgrade tables). -/
inductive Effect where
  | clickPower (v : Nat)
  | carValueBonus (v : Rat)
  | incomeMultiplier (v : Rat)
  | clickPowerMultiplier (v : Rat)
  | autoRepairMultiplier (v : Rat)
  | comboMaxBonus (v : Rat)
  | comboGainBonus (v : Rat)
  | queueSpawnReduction (v : Rat)
  | xpMultiplier (v : Rat)
  deriving DecidableEq

/-- Static definition of an upgrade (consumable-currency or Nip). -/
structure UpgradeDef where
  baseCost : Nat
  maxLevel : Nat
  costGrowth : Rat
  effect : Effect
  deriving DecidableEq

/-- Identifier of a consumable-currency upgrade. -/
inductive UpgradeId where
  | wrench | toolbox | impactDriver | hydraulicLift
  | diagnosticComputer | neonSign | turboCharger | cyberTools
  deriving DecidableEq

/-- The `UpgradeData` table. -/
def UpgradeData : UpgradeId → UpgradeDef
  | .wrench => ⟨15, 100, 1.12, .clickPower 1⟩
  | .toolbox => ⟨150, 50, 1.14, .clickPower 5⟩
  | .impactDriver => ⟨1000, 30, 1.15, .clickPower 15⟩
  | .hydraulicLift => ⟨8000, 20, 1.16, .clickPower 50⟩
  | .diagnosticComputer => ⟨5000, 10, 1.5, .carValueBonus 0.10⟩
  | .neonSign => ⟨25000, 10, 2.0, .incomeMultiplier 0.05⟩
  | .turboCharger => ⟨100000, 15, 1.18, .clickPower 200⟩
  | .cyberTools => ⟨1000000, 10, 1.20, .clickPower 1000⟩

/-- Identifier of a Nip (meta-currency) upgrade. -/
inductive NipUpgradeId where
  | sharpenedPaws | tunedCrew | loyalClients | comboInstinct | quickDispatch | wisdomManuals
  deriving DecidableEq

/-- The `NipUpgradeData` table. -/
def NipUpgradeData : NipUpgradeId → UpgradeDef
  | .sharpenedPaws => ⟨1, 10, 1.85, .clickPowerMultiplier 0.20⟩
  | .tunedCrew => ⟨2, 10, 1.9, .autoRepairMultiplier 0.18⟩
  | .loyalClients => ⟨2, 10, 1.95, .carValueBonus 0.12⟩
  | .comboInstinct => ⟨3, 8, 2.0, .comboMaxBonus 0.20⟩
  | .quickDispatch => ⟨3, 8, 2.05, .queueSpawnReduction 0.08⟩
  | .wisdomManuals => ⟨4, 8, 2.2, .xpMultiplier 0.10⟩

/-- Ordered list of consumable upgrade ids (`getUpgradeList`). -/
def upgradeIdList : List UpgradeId :=
  [.wrench, .toolbox, .impactDriver, .hydraulicLift,
   .diagnosticComputer, .neonSign, .turboCharger, .cyberTools]

/-- Ordered list of Nip upgrade ids (`getNipUpgradeList`). -/
def nipUpgradeIdList : List NipUpgradeId :=
  [.sharpenedPaws, .tunedCrew, .loyalClients, .comboInstinct, .quickDispatch, .wisdomManuals]

/-- Ordered list of consumable upgrade definitions (`getUpgradeList`). -/
def getUpgradeList : List UpgradeDef :=
  [UpgradeData .wrench, UpgradeData .toolbox, UpgradeData .impactDriver,
   UpgradeData .hydraulicLift, UpgradeData .diagnosticComputer, UpgradeData .neonSign,
   UpgradeData .turboCharger, UpgradeData .cyberTools]

/-- Ordered list of Nip upgrade definitions (`getNipUpgradeList`). -/
def getNipUpgradeList : List UpgradeDef :=
  [NipUpgradeData .sharpenedPaws, NipUpgradeData .tunedCrew, NipUpgradeData .loyalClients,
   NipUpgradeData .comboInstinct, NipUpgradeData .quickDispatch, NipUpgradeData .wisdomManuals]

/-- Every upgrade definition of both shops. -/
def allUpgradeDefs : List UpgradeDef :=
  getUpgradeList ++ getNipUpgradeList

/-- Cost of a consumable upgrade at a given level:
`Math.floor(upgrade.baseCost * Math.pow(upgrade.costGrowth, level))`. -/
def calculateUpgradeCost (upgrade : UpgradeDef) (level : Nat) : Nat :=
  ⌊(upgrade.baseCost : ℚ) * upgrade.costGrowth ^ level⌋₊

/-- Cost of a Nip upgrade at a given level: same formula as
`calculateUpgradeCost`, duplicated in the source. -/
def calculateNipUpgradeCost (upgrade : UpgradeDef) (level : Nat) : Nat :=
  ⌊(upgrade.baseCost : ℚ) * upgrade.costGrowth ^ level⌋₊

/-- Cost of hiring one more worker of a type already owned `owned` times:
`Math.floor(workerDef.baseCost * Math.pow(workerDef.costGrowth, owned))`. -/
def calculateWorkerCost (worker : WorkerDef) (owned : Nat) : Nat :=
  ⌊(worker.baseCost : ℚ) * worker.costGrowth ^ owned⌋₊

/-! ## Progression: the XP table and level lookup (ProgressionSystem) -/

/-- XP requirement of a single level:
`Math.floor(100 * Math.pow(1.15, level - 1))`.  Since 1.15 = 23/20
exactly, the floor equals the truncating natural division
`100 * 23 ^ (level - 1) / 20 ^ (level - 1)`, which is the form used here
(see `xpForLevel_eq_floor` below for the floor characterization). -/
def xpForLevel (level : Nat) : Nat :=
  100 * 23 ^ (level - 1) / 20 ^ (level - 1)

/-- Cumulative XP after `n` iterations of the `generateXPTable` loop:
`xpCum n` is the table entry at index `n` (level `n + 1`'s threshold). -/
def xpCum : Nat → Nat
  | 0 => 0
  | n + 1 => xpCum n + xpForLevel (n + 1)

/-- The precomputed XP table (`generateXPTable`): entry `i` is the
cumulative XP threshold of level `i + 1`; 101 entries (index 0..100). -/
def generateXPTable : List Nat :=
  (List.range 101).map xpCum

/-- The binary-search loop body of `calculateLevelFromXP`.  The JavaScript
`while (left < right)` loop is modelled with explicit fuel; fuel at least
`right - left` suffices since the gap shrinks on every iteration. -/
def levelSearchGo : Nat → Nat → Nat → Nat → Nat
  | 0, _, left, _ => left
  | fuel + 1, xp, left, right =>
    if left < right then
      let mid := (left + right + 1) / 2
      if xpCum mid ≤ xp then levelSearchGo fuel xp mid right
      else levelSearchGo fuel xp left (mid - 1)
    else left

/-- Model of `calculateLevelFromXP`: binary search for the highest table index whose
threshold is at most `xp`, then convert index to level (index 0 = level 1). -/
def calculateLevelFromXP (xp : Nat) : Nat :=
  levelSearchGo generateXPTable.length xp 0 (generateXPTable.length - 1) + 1

/-- Car unlock milestones (`ProgressionSystem.CAR_UNLOCKS`): the table is
keyed by the exact level reached. -/
def carUnlocksFor : Nat → List CarId
  | 1 => [.hatchback]
  | 3 => [.sedan]
  | 6 => [.suv]
  | 10 => [.pickup]
  | 15 => [.sportsCar]
  | 22 => [.vintage]
  | 30 => [.cyberCar]
  | 40 => [.hypercar]
  | _ => []

/-! ## Click/combo engine constants and combo updates (ClickSystem) -/

/-- Model of `this.maxCombo = 2.0`. -/
def maxCombo : Rat := 2

/-- Model of `this.comboDecayRate = 0.5` (decay per second). -/
def comboDecayRate : Rat := 0.5

/-- Model of `this.comboGainPerClick = 0.1`. -/
def comboGainPerClick : Rat := 0.1

/-- Model of `this.comboTimeout = 1000` (ms). -/
def comboTimeout : Rat := 1000

/-- Combo update performed by `handleClick` when a current car is present:
if the elapsed time since the previous click is below the timeout, raise
the combo by the per-click gain capped at `maxCombo`, else reset to 1. -/
def handleClickCombo (combo elapsed : Rat) : Rat :=
  if elapsed < comboTimeout then min (combo + comboGainPerClick) maxCombo else 1

/-- Combo decay performed by `ClickSystem.update` each tick: if no click
landed within the timeout window, decay toward 1 at the fixed rate. -/
def comboDecayStep (combo deltaMs elapsed : Rat) : Rat :=
  if comboTimeout < elapsed then max 1 (combo - comboDecayRate * (deltaMs / 1000)) else combo

/-! ## Entities: Car, Worker, Contract -/

/-- Contract metadata attached to a car spawned for a contract
(`car.contractMeta`). -/
structure ContractMeta where
  id : Nat
  payoutMultiplier : Rat
  bonusXP : Nat
  expiresAt : Nat
  expired : Bool
  deriving DecidableEq

/-- A car instance in the garage.  Cosmetic fields (name, color, sprites)
are omitted. -/
structure Car where
  id : CarId
  repairCost : Nat
  baseValue : Nat
  repairProgress : Rat
  createdAt : Nat
  contractMeta : Option ContractMeta
  tier : Nat
  deriving DecidableEq

/-- The `Car` constructor: fresh car of a type, tier 1, no progress. -/
def mkCar (id : CarId) (now : Nat) : Car :=
  { id := id
    repairCost := (CarData id).repairCost
    baseValue := (CarData id).baseValue
    repairProgress := 0
    createdAt := now
    contractMeta := none
    tier := 1 }

/-- Model of `Car.getValue(valueMultiplier)`:
`Math.floor(this.baseValue * valueMultiplier)`. -/
def Car.getValue (c : Car) (valueMultiplier : Rat) : Nat :=
  ⌊(c.baseValue : ℚ) * valueMultiplier⌋₊

/-- Model of `Car.applyTierScaling(tier)`: no scaling at tier 1 or below; otherwise
multiply repair cost and base value by `1 + (tier - 1) * 0.5`, flooring. -/
def Car.applyTierScaling (c : Car) (tier : Nat) : Car :=
  if tier ≤ 1 then { c with tier := 1 }
  else
    let multiplier : Rat := 1 + ((tier : ℚ) - 1) * 0.5
    { c with
      repairCost := ⌊(c.repairCost : ℚ) * multiplier⌋₊
      baseValue := ⌊(c.baseValue : ℚ) * multiplier⌋₊
      tier := tier }

/-- The serialized form of a car (`Car.serialize` keeps only id, progress,
creation time, tier and contract metadata — not repairCost / baseValue). -/
structure CarSave where
  id : CarId
  repairProgress : Rat
  createdAt : Nat
  tier : Nat
  contractMeta : Option ContractMeta
  deriving DecidableEq

/-- Model of `Car.serialize` (the JavaScript stores `this.tier || 1`). -/
def Car.serialize (c : Car) : CarSave :=
  { id := c.id
    repairProgress := c.repairProgress
    createdAt := c.createdAt
    tier := if c.tier = 0 then 1 else c.tier
    contractMeta := c.contractMeta }

/-- Model of `Car.deserialize`: rebuild the car from its static definition, restore
progress / creation time / tier / contract metadata, then re-apply tier
scaling.  `repairCost` and `baseValue` are recomputed, never restored.
(The unknown-id fallback to hatchback is unreachable here because `CarId`
only has valid ids.) -/
def Car.deserialize (now : Nat) (d : CarSave) : Car :=
  let car := mkCar d.id now
  let car :=
    { car with
      repairProgress := d.repairProgress
      createdAt := if d.createdAt = 0 then now else d.createdAt
      tier := if d.tier = 0 then 1 else d.tier
      contractMeta := d.contractMeta }
  if 1 < car.tier then car.applyTierScaling car.tier else car

/-- A hired worker instance. -/
structure Worker where
  id : WorkerId
  repairRate : Rat
  hiredAt : Nat
  totalRepairs : Rat
  deriving DecidableEq

/-- The serialized form of a worker. -/
structure WorkerSave where
  id : WorkerId
  hiredAt : Nat
  totalRepairs : Rat
  deriving DecidableEq

/-- Model of `Worker.serialize`. -/
def Worker.serialize (w : Worker) : WorkerSave :=
  { id := w.id, hiredAt := w.hiredAt, totalRepairs := w.totalRepairs }

/-- Model of `Worker.deserialize`: rebuild from the static definition, restore
instance state.  (The unknown-id fallback is unreachable for valid ids.) -/
def Worker.deserialize (now : Nat) (d : WorkerSave) : Worker :=
  { id := d.id
    repairRate := (WorkerData d.id).repairRate
    hiredAt := if d.hiredAt = 0 then now else d.hiredAt
    totalRepairs := d.totalRepairs }

/-- A job-board contract offer (`JobBoardSystem.generateContract`).
The string label is cosmetic and omitted; ids are numbers. -/
structure Contract where
  id : Nat
  carId : CarId
  rarity : Rarity
  repairMultiplier : Rat
  payoutMultiplier : Rat
  bonusXP : Nat
  durationMs : Nat
  createdAt : Nat
  deriving DecidableEq

/-- An accepted (active) contract: the offer plus its acceptance stamps. -/
structure ActiveContract extends Contract where
  acceptedAt : Nat
  expiresAt : Nat
  deriving DecidableEq

/-! ## The Economy Ledger (GameState) -/

/-- The central mutable game state.  Field order and defaults follow
`GameState.reset`.  Upgrade-level and worker-count objects are modelled as
total functions (absent keys read as level/count 0, as in the source). -/
structure GameState where
  currency : Nat
  totalEarned : Nat
  totalSpent : Nat
  carsRepaired : Nat
  totalClicks : Nat
  clickPower : Nat
  carValueBonus : Rat
  incomeMultiplier : Rat
  clickPowerMultiplier : Rat
  autoRepairMultiplier : Rat
  queueSpawnMultiplier : Rat
  xpMultiplier : Rat
  comboMaxBonus : Rat
  comboGainBonus : Rat
  upgrades : UpgradeId → Nat
  nipUpgrades : NipUpgradeId → Nat
  achievements : List (Nat × Nat)
  workers : List Worker
  workerCounts : WorkerId → Nat
  currentCar : Option Car
  carQueue : List Car
  currentCarStartTime : Option Nat
  lastCarRepairedAt : Nat
  jobContracts : List Contract
  activeJobContract : Option ActiveContract
  contractsCompleted : Nat
  contractsFailed : Nat
  autoRepairRate : Rat
  lastSaveTime : Nat
  totalPlayTime : Nat
  sessionStartTime : Nat
  garageXP : Nat
  garageLevel : Nat
  currentTier : Nat
  unlockedCars : List CarId
  prestigeCurrency : Nat
  totalPrestigeEarned : Nat
  lifetimeEarnings : Nat
  prestigeMultiplier : Rat

/-- Model of `GameState.reset`: every field to its new-run default (`Date.now()` is
the `now` parameter). -/
def resetState (now : Nat) : GameState :=
  { currency := 0
    totalEarned := 0
    totalSpent := 0
    carsRepaired := 0
    totalClicks := 0
    clickPower := 1
    carValueBonus := 0
    incomeMultiplier := 1
    clickPowerMultiplier := 1
    autoRepairMultiplier := 1
    queueSpawnMultiplier := 1
    xpMultiplier := 1
    comboMaxBonus := 0
    comboGainBonus := 0
    upgrades := fun _ => 0
    nipUpgrades := fun _ => 0
    achievements := []
    workers := []
    workerCounts := fun _ => 0
    currentCar := none
    carQueue := []
    currentCarStartTime := none
    lastCarRepairedAt := 0
    jobContracts := []
    activeJobContract := none
    contractsCompleted := 0
    contractsFailed := 0
    autoRepairRate := 0
    lastSaveTime := now
    totalPlayTime := 0
    sessionStartTime := now
    garageXP := 0
    garageLevel := 1
    currentTier := 1
    unlockedCars := [.hatchback]
    prestigeCurrency := 0
    totalPrestigeEarned := 0
    lifetimeEarnings := 0
    prestigeMultiplier := 1 }

/-- Model of `GameState.addCurrency`: multiply by income and prestige multipliers,
floor, credit currency / totalEarned / lifetimeEarnings. -/
def addCurrency (amount : Nat) (s : GameState) : GameState :=
  let adjustedAmount := ⌊(amount : ℚ) * s.incomeMultiplier * s.prestigeMultiplier⌋₊
  { s with
    currency := s.currency + adjustedAmount
    totalEarned := s.totalEarned + adjustedAmount
    lifetimeEarnings := s.lifetimeEarnings + adjustedAmount }

/-- Model of `GameState.getCarValueMultiplier`: `1 + this.carValueBonus`. -/
def getCarValueMultiplier (s : GameState) : Rat :=
  1 + s.carValueBonus

/-! ## Derived-stat recomputation (`GameState.recalculateStats`)

The source resets the derived fields in place and then replays every owned
upgrade level.  The computation is factored through a record of the derived
values so that, by construction, only derived fields of the state change. -/

/-- The derived values recomputed from scratch by `recalculateStats`. -/
structure Derived where
  clickPower : Nat
  carValueBonus : Rat
  incomeMultiplier : Rat
  clickPowerMultiplier : Rat
  autoRepairMultiplier : Rat
  queueSpawnMultiplier : Rat
  xpMultiplier : Rat
  comboMaxBonus : Rat
  comboGainBonus : Rat
  deriving DecidableEq

/-- Base values the derived fields are reset to before replaying upgrades. -/
def baseDerived : Derived :=
  { clickPower := 1
    carValueBonus := 0
    incomeMultiplier := 1
    clickPowerMultiplier := 1
    autoRepairMultiplier := 1
    queueSpawnMultiplier := 1
    xpMultiplier := 1
    comboMaxBonus := 0
    comboGainBonus := 0 }

/-- Model of `GameState.applyUpgradeEffect`: the switch handles only the effect
kinds used by consumable upgrades; anything else falls through. -/
def applyUpgradeEffect (effect : Effect) (d : Derived) : Derived :=
  match effect with
  | .clickPower v => { d with clickPower := d.clickPower + v }
  | .carValueBonus v => { d with carValueBonus := d.carValueBonus + v }
  | .incomeMultiplier v => { d with incomeMultiplier := d.incomeMultiplier + v }
  | _ => d

/-- Model of `GameState.applyNipUpgradeEffect`: the switch for Nip upgrade effect
kinds.  Note the spawn-interval factor is clamped at 0.4 per application. -/
def applyNipUpgradeEffect (effect : Effect) (d : Derived) : Derived :=
  match effect with
  | .clickPowerMultiplier v => { d with clickPowerMultiplier := d.clickPowerMultiplier + v }
  | .autoRepairMultiplier v => { d with autoRepairMultiplier := d.autoRepairMultiplier + v }
  | .carValueBonus v => { d with carValueBonus := d.carValueBonus + v }
  | .comboMaxBonus v => { d with comboMaxBonus := d.comboMaxBonus + v }
  | .comboGainBonus v => { d with comboGainBonus := d.comboGainBonus + v }
  | .queueSpawnReduction v =>
    { d with queueSpawnMultiplier := d.queueSpawnMultiplier * max 0.4 (1 - v) }
  | .xpMultiplier v => { d with xpMultiplier := d.xpMultiplier + v }
  | _ => d

/-- Model of `GameState.calculateAutoRepairRate`: sum of worker rates times the
auto-repair multiplier. -/
def calculateAutoRepairRateVal (workers : List Worker) (autoRepairMultiplier : Rat) : Rat :=
  (workers.foldl (fun total w => total + w.repairRate) 0) * autoRepairMultiplier

/-- Model of `GameState.recalculateStats`: reset derived values to baseline, replay
every owned consumable upgrade level then every owned Nip upgrade level
(each effect applied exactly `level` times), recompute the prestige
multiplier from lifetime Nip, finish click power with its multiplier, and
recompute the auto-repair rate.  Iterating over all ids with a level
lookup is equivalent to iterating the objects' present keys, since a
missing key reads as level 0. -/
def recalculateStats (s : GameState) : GameState :=
  let d := upgradeIdList.foldl
    (fun d uid => (applyUpgradeEffect (UpgradeData uid).effect)^[s.upgrades uid] d)
    baseDerived
  let d := nipUpgradeIdList.foldl
    (fun d uid => (applyNipUpgradeEffect (NipUpgradeData uid).effect)^[s.nipUpgrades uid] d)
    d
  let prestigeMultiplier : Rat := 1 + (s.totalPrestigeEarned : ℚ) * 0.05
  let clickPower := max 1 ⌊(d.clickPower : ℚ) * d.clickPowerMultiplier⌋₊
  { s with
    clickPower := clickPower
    carValueBonus := d.carValueBonus
    incomeMultiplier := d.incomeMultiplier
    clickPowerMultiplier := d.clickPowerMultiplier
    autoRepairMultiplier := d.autoRepairMultiplier
    queueSpawnMultiplier := d.queueSpawnMultiplier
    xpMultiplier := d.xpMultiplier
    comboMaxBonus := d.comboMaxBonus
    comboGainBonus := d.comboGainBonus
    prestigeMultiplier := prestigeMultiplier
    autoRepairRate := calculateAutoRepairRateVal s.workers d.autoRepairMultiplier }

/-! ## Progression engine operations (ProgressionSystem) -/

/-- Model of `ProgressionSystem.getCurrentTier`:
`Math.floor(this.state.garageLevel / 10) + 1`. -/
def getCurrentTier (s : GameState) : Nat :=
  s.garageLevel / 10 + 1

/-- Model of `ProgressionSystem.getTierMultiplier`: `1 + (tier - 1) * 0.5`. -/
def getTierMultiplier (tier : Nat) : Rat :=
  1 + ((tier : ℚ) - 1) * 0.5

/-- Model of `ProgressionSystem.checkCarUnlocks(newLevel)`: push every car of the
milestone entry for exactly `newLevel` that is not yet unlocked. -/
def checkCarUnlocks (newLevel : Nat) (s : GameState) : GameState :=
  { s with
    unlockedCars :=
      (carUnlocksFor newLevel).foldl
        (fun acc carId => if carId ∈ acc then acc else acc ++ [carId])
        s.unlockedCars }

/-- Model of `ProgressionSystem.addXP(amount)`: non-positive amounts are ignored;
otherwise credit XP, recompute the level, and on a level increase update
the level, update the tier when it increased, and check car unlocks. -/
def addXP (amount : Nat) (s : GameState) : GameState :=
  if amount = 0 then s
  else
    let oldTier := s.currentTier
    let s := { s with garageXP := s.garageXP + amount }
    let newLevel := calculateLevelFromXP s.garageXP
    if s.garageLevel < newLevel then
      let s := { s with garageLevel := newLevel }
      let newTier := getCurrentTier s
      let s := if oldTier < newTier then { s with currentTier := newTier } else s
      checkCarUnlocks newLevel s
    else s

/-! ## Prestige engine (PrestigeSystem) -/

/-- Model of `PrestigeSystem.baseCost`: one million dollars per Nip step. -/
def prestigeBaseCost : Nat := 1000000

/-- Model of `PrestigeSystem.calculateClaimableNip`: below the base threshold the
claim is zero; otherwise `floor(sqrt(lifetimeEarnings / baseCost))` minus
Nip already earned (`totalPrestigeEarned || prestigeCurrency`), floored at
zero (`Nat` subtraction is exactly `Math.max(0, ...)` here). -/
def calculateClaimableNip (s : GameState) : Nat :=
  if s.lifetimeEarnings < prestigeBaseCost then 0
  else
    let totalPotentialNip := Nat.sqrt (s.lifetimeEarnings / prestigeBaseCost)
    let earnedTotal :=
      if s.totalPrestigeEarned = 0 then s.prestigeCurrency else s.totalPrestigeEarned
    totalPotentialNip - earnedTotal

/-- Model of `PrestigeSystem.prestige`: fail without mutation when nothing is
claimable; otherwise capture the carried-over values, reset the whole
state, restore exactly prestige currency, lifetime Nip, Nip upgrade levels
and lifetime earnings, and recompute derived stats. -/
def prestige (now : Nat) (s : GameState) : Bool × GameState :=
  let claimable := calculateClaimableNip s
  if claimable = 0 then (false, s)
  else
    let newPrestigeCurrency := s.prestigeCurrency + claimable
    let newTotalPrestigeEarned :=
      (if s.totalPrestigeEarned = 0 then s.prestigeCurrency else s.totalPrestigeEarned)
        + claimable
    let currentLifetimeEarnings := s.lifetimeEarnings
    let savedNipUpgrades := s.nipUpgrades
    let s := resetState now
    let s :=
      { s with
        prestigeCurrency := newPrestigeCurrency
        totalPrestigeEarned := newTotalPrestigeEarned
        nipUpgrades := savedNipUpgrades
        lifetimeEarnings := currentLifetimeEarnings }
    (true, recalculateStats s)

/-! ## Persistence: serialize / deserialize (GameState) -/

/-- The plain-data shape produced by `GameState.serialize`. -/
structure SaveData where
  currency : Nat
  totalEarned : Nat
  totalSpent : Nat
  totalClicks : Nat
  carsRepaired : Nat
  upgrades : UpgradeId → Nat
  nipUpgrades : NipUpgradeId → Nat
  achievements : List (Nat × Nat)
  workers : List WorkerSave
  workerCounts : WorkerId → Nat
  currentCar : Option CarSave
  carQueue : List CarSave
  jobContracts : List Contract
  activeJobContract : Option ActiveContract
  contractsCompleted : Nat
  contractsFailed : Nat
  lastSaveTime : Nat
  totalPlayTime : Nat
  garageXP : Nat
  garageLevel : Nat
  currentTier : Nat
  unlockedCars : List CarId
  prestigeCurrency : Nat
  totalPrestigeEarned : Nat
  lifetimeEarnings : Nat

/-- Model of `GameState.serialize`: copy every persistent field; cars and workers
are serialized entity-wise; derived multipliers are not stored.
`lastSaveTime` is `Date.now()` and `totalPlayTime` adds the session time
`now - sessionStartTime`. -/
def serialize (now : Nat) (s : GameState) : SaveData :=
  { currency := s.currency
    totalEarned := s.totalEarned
    totalSpent := s.totalSpent
    totalClicks := s.totalClicks
    carsRepaired := s.carsRepaired
    upgrades := s.upgrades
    nipUpgrades := s.nipUpgrades
    achievements := s.achievements
    workers := s.workers.map Worker.serialize
    workerCounts := s.workerCounts
    currentCar := s.currentCar.map Car.serialize
    carQueue := s.carQueue.map Car.serialize
    jobContracts := s.jobContracts
    activeJobContract := s.activeJobContract
    contractsCompleted := s.contractsCompleted
    contractsFailed := s.contractsFailed
    lastSaveTime := now
    totalPlayTime := s.totalPlayTime + (now - s.sessionStartTime)
    garageXP := s.garageXP
    garageLevel := s.garageLevel
    currentTier := s.currentTier
    unlockedCars := s.unlockedCars
    prestigeCurrency := s.prestigeCurrency
    totalPrestigeEarned := s.totalPrestigeEarned
    lifetimeEarnings := s.lifetimeEarnings }

/-- Model of `GameState.deserialize(data)`: restore every persistent field with the
source's `|| default` fallbacks (`totalPrestigeEarned` falls back to the
just-restored prestige currency, `lifetimeEarnings` to the just-restored
`totalEarned`), reset the per-session timing fields, then recompute every
derived value with `recalculateStats`. -/
def deserialize (now : Nat) (data : SaveData) : GameState :=
  let s := resetState now
  let s :=
    { s with
      currency := data.currency
      totalEarned := data.totalEarned
      totalSpent := data.totalSpent
      totalClicks := data.totalClicks
      carsRepaired := data.carsRepaired
      upgrades := data.upgrades
      nipUpgrades := data.nipUpgrades
      achievements := data.achievements
      workers := data.workers.map (Worker.deserialize now)
      workerCounts := data.workerCounts
      currentCar := data.currentCar.map (Car.deserialize now)
      carQueue := data.carQueue.map (Car.deserialize now)
      currentCarStartTime := if data.currentCar.isSome then some now else none
      lastCarRepairedAt := 0
      jobContracts := data.jobContracts
      activeJobContract := data.activeJobContract
      contractsCompleted := data.contractsCompleted
      contractsFailed := data.contractsFailed
      lastSaveTime := if data.lastSaveTime = 0 then now else data.lastSaveTime
      totalPlayTime := data.totalPlayTime
      sessionStartTime := now
      garageXP := data.garageXP
      garageLevel := if data.garageLevel = 0 then 1 else data.garageLevel
      currentTier := if data.currentTier = 0 then 1 else data.currentTier
      unlockedCars := data.unlockedCars
      prestigeCurrency := data.prestigeCurrency
      totalPrestigeEarned :=
        if data.totalPrestigeEarned = 0 then data.prestigeCurrency
        else data.totalPrestigeEarned
      lifetimeEarnings :=
        if data.lifetimeEarnings = 0 then data.totalEarned else data.lifetimeEarnings }
  recalculateStats s

/-! ## Car queue engine (CarQueueSystem) -/

/-- Model of `CarQueueSystem.maxQueueSize`. -/
def maxQueueSize : Nat := 5

/-- Model of `CarQueueSystem.baseSpawnInterval` (ms). -/
def baseSpawnInterval : Rat := 8000

/-- Model of `CarQueueSystem.minSpawnInterval` (ms). -/
def minSpawnInterval : Rat := 2000

/-- Model of `CarQueueSystem.getSpawnInterval`: a worker-count bonus capped at 75%
shortens the base interval, floored at the minimum interval.  (The state's
`queueSpawnMultiplier` is not consulted.) -/
def getSpawnInterval (s : GameState) : Rat :=
  let workerBonus := min ((s.workers.length : ℚ) * 0.05) 0.75
  let interval := baseSpawnInterval * (1 - workerBonus)
  max interval minSpawnInterval

/-- Modelled from the spec: the claimed spawn-interval formula
`max(minInterval, baseInterval * (1 - workerCountBonus) * queueSpawnMultiplier)`,
which additionally scales by the ledger's derived `queueSpawnMultiplier`.
Stated only to compare with `getSpawnInterval`. -/
def spawnIntervalSpec (s : GameState) : Rat :=
  let workerBonus := min ((s.workers.length : ℚ) * 0.05) 0.75
  max minSpawnInterval (baseSpawnInterval * (1 - workerBonus) * s.queueSpawnMultiplier)

/-! ## Job board engine (JobBoardSystem) -/

/-- Model of `JobBoardSystem.maxContracts`. -/
def maxContracts : Nat := 3

/-- Model of `JobBoardSystem.refreshContracts(replaceAll)`: optionally clear the
board, trim it to at most three offers, then generate offers until three
are present.  Random generation is supplied by the oracle `gen`. -/
def refreshContracts (gen : Nat → Contract) (replaceAll : Bool) (s : GameState) : GameState :=
  let contracts := if replaceAll then [] else s.jobContracts
  let contracts := if maxContracts < contracts.length then contracts.take maxContracts else contracts
  let contracts := contracts ++ (List.range (maxContracts - contracts.length)).map gen
  { s with jobContracts := contracts }

/-- The contract car built by `JobBoardSystem.spawnContractCar`: a fresh
car of the contract's type, tier-scaled to the current tier, with its
repair cost further scaled by the contract's repair multiplier (at least
1) and tagged with the contract metadata. -/
def mkContractCar (now : Nat) (tier : Nat) (contract : ActiveContract) : Car :=
  let car := mkCar contract.carId now
  let car := car.applyTierScaling tier
  { car with
    repairCost := max 1 ⌊(car.repairCost : ℚ) * contract.repairMultiplier⌋₊
    contractMeta := some
      { id := contract.id
        payoutMultiplier := contract.payoutMultiplier
        bonusXP := contract.bonusXP
        expiresAt := contract.expiresAt
        expired := false } }

/-- Model of `JobBoardSystem.spawnContractCar`: the contract car becomes the current
car when there is none; otherwise it is pushed at the front of the queue,
the last queued car being dropped first when the queue is already at its
cap of 5. -/
def spawnContractCar (now : Nat) (contract : ActiveContract) (s : GameState) : GameState :=
  let contractCar := mkContractCar now (getCurrentTier s) contract
  match s.currentCar with
  | none =>
    { s with currentCar := some contractCar, currentCarStartTime := some now }
  | some _ =>
    let queue := if 5 ≤ s.carQueue.length then s.carQueue.dropLast else s.carQueue
    { s with carQueue := contractCar :: queue }

/-- Model of `JobBoardSystem.acceptContract(contractId)`: requires no active
contract and a matching offer; removes the offer, stamps acceptance and
expiry, spawns the contract car and refills the board. -/
def acceptContract (gen : Nat → Contract) (now : Nat) (contractId : Nat) (s : GameState) :
    Bool × GameState :=
  if s.activeJobContract.isSome then (false, s)
  else
    match s.jobContracts.findIdx? (fun c => c.id == contractId) with
    | none => (false, s)
    | some index =>
      match s.jobContracts[index]? with
      | none => (false, s)  -- unreachable: findIdx? returns an in-range index
      | some contract =>
        let activeContract : ActiveContract :=
          { toContract := contract, acceptedAt := now, expiresAt := now + contract.durationMs }
        let s :=
          { s with
            jobContracts := s.jobContracts.eraseIdx index
            activeJobContract := some activeContract }
        let s := spawnContractCar now activeContract s
        let s := refreshContracts gen false s
        (true, s)

/-! ## Repair Completion Service (RepairCompletionService.completeRepair) -/

/-- The contract outcome recorded in the car-repaired event. -/
structure ContractResult where
  id : Nat
  completedInTime : Bool
  payoutMultiplier : Rat
  bonusXP : Nat
  deriving DecidableEq

/-- The payload of the `CAR_REPAIRED` event. -/
structure RepairEvent where
  car : Car
  payment : Nat
  isAutoRepair : Bool
  clickBonusMultiplier : Rat
  contractResult : Option ContractResult
  deriving DecidableEq

/-- The base XP awarded by `completeRepair`: the car's repair cost with
tier scaling divided back out, divided by 10, scaled by the XP multiplier
and floored. -/
def repairBaseXP (car : Car) (xpMultiplier : Rat) : Nat :=
  let tier := if car.tier = 0 then 1 else car.tier
  let baseCost :=
    if 1 < tier then ⌊(car.repairCost : ℚ) / getTierMultiplier tier⌋₊ else car.repairCost
  ⌊((baseCost : ℚ) / 10) * xpMultiplier⌋₊

/-- Model of `RepairCompletionService.completeRepair(isAutoRepair, clickBonusMultiplier)`:
`none` when there is no current car; otherwise compute the payment from
base value, car-value multiplier and click bonus; when the car carries
contract metadata, scale the payment by the contract's payout multiplier
and award the scaled bonus XP only if it was completed in time; credit
currency, count the repair, award base XP, clear the current car, and
return the car-repaired event payload with the new state.  The event is
emitted before the car is cleared, but its subscribers do not read the
fields written afterwards, so composing `handleCarRepaired` on the result
is equivalent. -/
def completeRepair (now : Nat) (isAutoRepair : Bool) (clickBonusMultiplier : Rat)
    (s : GameState) : Option (RepairEvent × GameState) :=
  match s.currentCar with
  | none => none
  | some car =>
    let baseValue := car.getValue 1
    let valueMultiplier := getCarValueMultiplier s
    let payment := ⌊(baseValue : ℚ) * valueMultiplier * clickBonusMultiplier⌋₊
    let (payment, contractResult, s) :=
      match car.contractMeta with
      | none => (payment, none, s)
      | some meta =>
        let completedInTime : Bool := !meta.expired && decide (now ≤ meta.expiresAt)
        let payoutMultiplier := if completedInTime then meta.payoutMultiplier else 1
        let bonusXP := if completedInTime then meta.bonusXP else 0
        let payment := ⌊(payment : ℚ) * payoutMultiplier⌋₊
        let s :=
          if 0 < bonusXP then addXP ⌊(bonusXP : ℚ) * s.xpMultiplier⌋₊ s else s
        (payment,
         some { id := meta.id, completedInTime := completedInTime,
                payoutMultiplier := payoutMultiplier, bonusXP := bonusXP },
         s)
    let s := addCurrency payment s
    let s := { s with carsRepaired := s.carsRepaired + 1 }
    let s := addXP (repairBaseXP car s.xpMultiplier) s
    let event : RepairEvent :=
      { car := car, payment := payment, isAutoRepair := isAutoRepair,
        clickBonusMultiplier := clickBonusMultiplier, contractResult := contractResult }
    let s :=
      { s with currentCar := none, currentCarStartTime := none, lastCarRepairedAt := now }
    some (event, s)

/-- Model of `JobBoardSystem.handleCarRepaired(data)`: when the repaired car's
contract metadata matches the active contract, clear the active slot,
count the contract completed when it finished in time and failed (late)
otherwise, and refill the board. -/
def handleCarRepaired (gen : Nat → Contract) (data : RepairEvent) (s : GameState) : GameState :=
  match data.car.contractMeta with
  | none => s
  | some contractMeta =>
    match s.activeJobContract with
    | none => s
    | some active =>
      if active.id ≠ contractMeta.id then s
      else
        let completedInTime :=
          match data.contractResult with
          | some r => r.completedInTime
          | none => false
        let s := { s with activeJobContract := none }
        let s :=
          if completedInTime then { s with contractsCompleted := s.contractsCompleted + 1 }
          else { s with contractsFailed := s.contractsFailed + 1 }
        refreshContracts gen false s

/-! ## Reachable states

The states a running game can be in through the operations named by the
tier invariant: the fresh state, XP awards, prestige resets, and
save/load round trips of the game's own saves. -/

/-- Reachability by the operations relevant to the tier/level invariant. -/
inductive Reachable : GameState → Prop where
  | init (now : Nat) : Reachable (resetState now)
  | addXP_step (amount : Nat) (s : GameState) :
      Reachable s → Reachable (addXP amount s)
  | prestige_step (now : Nat) (s : GameState) :
      Reachable s → Reachable ((prestige now s).2)
  | load_step (saveNow loadNow : Nat) (s : GameState) :
      Reachable s → Reachable (deserialize loadNow (serialize saveNow s))

/-! ## Frame lemmas: which fields each operation leaves untouched -/

/-- Level of the recalculated state. -/
lemma recalc_garageLevel (s : GameState) : (recalculateStats s).garageLevel = s.garageLevel := rfl

/-- Tier of the recalculated state. -/
lemma recalc_currentTier (s : GameState) : (recalculateStats s).currentTier = s.currentTier := rfl

/-- XP of the recalculated state. -/
lemma recalc_garageXP (s : GameState) : (recalculateStats s).garageXP = s.garageXP := rfl

/-- Currency of the recalculated state. -/
lemma recalc_currency (s : GameState) : (recalculateStats s).currency = s.currency := rfl

/-- Total earned of the recalculated state. -/
lemma recalc_totalEarned (s : GameState) : (recalculateStats s).totalEarned = s.totalEarned := rfl

/-- Lifetime earnings of the recalculated state. -/
lemma recalc_lifetimeEarnings (s : GameState) :
    (recalculateStats s).lifetimeEarnings = s.lifetimeEarnings := rfl

/-- Upgrades of the recalculated state. -/
lemma recalc_upgrades (s : GameState) : (recalculateStats s).upgrades = s.upgrades := rfl

/-- Nip upgrades of the recalculated state. -/
lemma recalc_nipUpgrades (s : GameState) : (recalculateStats s).nipUpgrades = s.nipUpgrades := rfl

/-- Prestige currency of the recalculated state. -/
lemma recalc_prestigeCurrency (s : GameState) :
    (recalculateStats s).prestigeCurrency = s.prestigeCurrency := rfl

/-- Total prestige earned of the recalculated state. -/
lemma recalc_totalPrestigeEarned (s : GameState) :
    (recalculateStats s).totalPrestigeEarned = s.totalPrestigeEarned := rfl

/-- Cars of the recalculated state. -/
lemma recalc_currentCar (s : GameState) : (recalculateStats s).currentCar = s.currentCar := rfl

/-- Queue of the recalculated state. -/
lemma recalc_carQueue (s : GameState) : (recalculateStats s).carQueue = s.carQueue := rfl

/-- Contracts of the recalculated state. -/
lemma recalc_jobContracts (s : GameState) :
    (recalculateStats s).jobContracts = s.jobContracts := rfl

/-- Active contract of the recalculated state. -/
lemma recalc_activeJobContract (s : GameState) :
    (recalculateStats s).activeJobContract = s.activeJobContract := rfl

/-- Contract counters of the recalculated state. -/
lemma recalc_contractsCompleted (s : GameState) :
    (recalculateStats s).contractsCompleted = s.contractsCompleted := rfl

/-- Contract failure counter of the recalculated state. -/
lemma recalc_contractsFailed (s : GameState) :
    (recalculateStats s).contractsFailed = s.contractsFailed := rfl

/-- Achievements of the recalculated state. -/
lemma recalc_achievements (s : GameState) :
    (recalculateStats s).achievements = s.achievements := rfl

/-- Workers of the recalculated state. -/
lemma recalc_workers (s : GameState) : (recalculateStats s).workers = s.workers := rfl

/-- Worker counts of the recalculated state. -/
lemma recalc_workerCounts (s : GameState) :
    (recalculateStats s).workerCounts = s.workerCounts := rfl

/-- Unlocked cars of the recalculated state. -/
lemma recalc_unlockedCars (s : GameState) :
    (recalculateStats s).unlockedCars = s.unlockedCars := rfl

/-- Spent total of the recalculated state. -/
lemma recalc_totalSpent (s : GameState) : (recalculateStats s).totalSpent = s.totalSpent := rfl

/-- Click counter of the recalculated state. -/
lemma recalc_totalClicks (s : GameState) : (recalculateStats s).totalClicks = s.totalClicks := rfl

/-- Repair counter of the recalculated state. -/
lemma recalc_carsRepaired (s : GameState) :
    (recalculateStats s).carsRepaired = s.carsRepaired := rfl

/-! ## Lemmas about the XP table and level lookup -/

/-- The per-level XP requirement is exactly the floored rational of the
source formula. -/
lemma xpForLevel_eq_floor (level : Nat) :
    xpForLevel level = ⌊(100 : ℚ) * (1.15 : ℚ) ^ (level - 1)⌋₊ := by
  have h115 : (1.15 : ℚ) = 23 / 20 := by norm_num
  have hcast : (100 : ℚ) * (23 / 20 : ℚ) ^ (level - 1)
      = ((100 * 23 ^ (level - 1) : ℕ) : ℚ) / ((20 ^ (level - 1) : ℕ) : ℚ) := by
    push_cast [div_pow]
    ring
  rw [xpForLevel, h115, hcast, Nat.floor_div_nat, Nat.floor_natCast]

/-- Every level requires at least 100 XP. -/
lemma xpForLevel_ge (level : Nat) : 100 ≤ xpForLevel level := by
  have hpow : 20 ^ (level - 1) ≤ 23 ^ (level - 1) :=
    Nat.pow_le_pow_left (by norm_num) _
  have hpos : 0 < 20 ^ (level - 1) := Nat.pos_pow_of_pos _ (by norm_num)
  rw [xpForLevel, Nat.le_div_iff_mul_le hpos]
  calc 100 * 20 ^ (level - 1) ≤ 100 * 23 ^ (level - 1) :=
        Nat.mul_le_mul_left _ hpow
    _ ≤ 100 * 23 ^ (level - 1) := le_rfl

/-- The cumulative XP table is strictly increasing. -/
lemma xpCum_lt_succ (n : Nat) : xpCum n < xpCum (n + 1) := by
  have := xpForLevel_ge (n + 1)
  simp only [xpCum]
  omega

/-- Strict monotonicity of the cumulative XP table. -/
lemma xpCum_strictMono : StrictMono xpCum :=
  strictMono_nat_of_lt_succ xpCum_lt_succ

/-- Monotonicity of the cumulative XP table. -/
lemma xpCum_mono : Monotone xpCum :=
  xpCum_strictMono.monotone

/-- Correctness of the binary-search loop when the sought value lies
inside the bracket: the result is the largest index whose threshold is at
most the XP value. -/
lemma levelSearchGo_correct (xp : Nat) :
    ∀ fuel left right, right - left < fuel → left ≤ right →
      xpCum left ≤ xp → xp < xpCum (right + 1) →
      xpCum (levelSearchGo fuel xp left right) ≤ xp ∧
      xp < xpCum (levelSearchGo fuel xp left right + 1) ∧
      left ≤ levelSearchGo fuel xp left right ∧
      levelSearchGo fuel xp left right ≤ right := by
  intro fuel
  induction fuel with
  | zero => intro left right h; omega
  | succ fuel ih =>
    intro left right hfuel hlr hl hr
    by_cases hlt : left < right
    · have hmid1 : left < (left + right + 1) / 2 := by omega
      have hmid2 : (left + right + 1) / 2 ≤ right := by omega
      simp only [levelSearchGo, if_pos hlt]
      by_cases hcmp : xpCum ((left + right + 1) / 2) ≤ xp
      · simp only [if_pos hcmp]
        have h := ih ((left + right + 1) / 2) right (by omega) hmid2 hcmp hr
        exact ⟨h.1, h.2.1, le_trans (le_of_lt hmid1) h.2.2.1, h.2.2.2⟩
      · simp only [if_neg hcmp]
        have hmid3 : (left + right + 1) / 2 - 1 + 1 = (left + right + 1) / 2 := by omega
        have h := ih left ((left + right + 1) / 2 - 1) (by omega) (by omega) hl
          (by rw [hmid3]; omega)
        exact ⟨h.1, h.2.1, h.2.2.1, by omega⟩
    · have : left = right := by omega
      subst this
      simp only [levelSearchGo, if_neg hlt]
      exact ⟨hl, hr, le_rfl, le_rfl⟩

/-- When the right bracket's threshold is already within reach, the binary
search settles on the right bracket. -/
lemma levelSearchGo_of_ge (xp : Nat) :
    ∀ fuel left right, right - left < fuel → left ≤ right →
      xpCum right ≤ xp → levelSearchGo fuel xp left right = right := by
  intro fuel
  induction fuel with
  | zero => intro left right h; omega
  | succ fuel ih =>
    intro left right hfuel hlr hr
    by_cases hlt : left < right
    · have hmid1 : left < (left + right + 1) / 2 := by omega
      have hmid2 : (left + right + 1) / 2 ≤ right := by omega
      have hcmp : xpCum ((left + right + 1) / 2) ≤ xp :=
        le_trans (xpCum_mono hmid2) hr
      simp only [levelSearchGo, if_pos hlt, if_pos hcmp]
      exact ih _ _ (by omega) hmid2 hr
    · simp only [levelSearchGo, if_neg hlt]
      omega

/-- The XP table has 101 entries. -/
lemma generateXPTable_length : generateXPTable.length = 101 := by
  simp [generateXPTable]

/-- Entries of the generated table are the cumulative sums. -/
lemma generateXPTable_getElem (i : Nat) (h : i < generateXPTable.length) :
    generateXPTable[i] = xpCum i := by
  simp [generateXPTable]

/-- Helper: the natural square root determined by its defining bracket. -/
lemma natSqrt_eq (m n : Nat) (h1 : n * n ≤ m) (h2 : m < (n + 1) * (n + 1)) :
    Nat.sqrt m = n :=
  le_antisymm (Nat.lt_succ_iff.mp (Nat.sqrt_lt.mpr h2)) (Nat.le_sqrt.mpr h1)

/-- Helper: the natural floor determined by its defining bracket. -/
lemma natFloor_eq (q : ℚ) (n : Nat) (h1 : (n : ℚ) ≤ q) (h2 : q < n + 1) :
    ⌊q⌋₊ = n :=
  (Nat.floor_eq_iff (le_trans (Nat.cast_nonneg n) h1)).mpr ⟨h1, h2⟩

/-- Characterization of `calculateLevelFromXP`: the result is in 1..101,
its own threshold is within the XP amount, and while inside the table the
next threshold is beyond it — i.e. it is the largest level of the table
whose cumulative threshold is at most the XP amount. -/
lemma calculateLevelFromXP_spec (xp : Nat) :
    xpCum (calculateLevelFromXP xp - 1) ≤ xp ∧
    1 ≤ calculateLevelFromXP xp ∧ calculateLevelFromXP xp ≤ 101 ∧
    (calculateLevelFromXP xp ≤ 100 → xp < xpCum (calculateLevelFromXP xp)) := by
  rw [calculateLevelFromXP, generateXPTable_length]
  simp only [show (101 : ℕ) - 1 = 100 from rfl]
  by_cases hbig : xp < xpCum 101
  · obtain ⟨ha, hb, hc, hd⟩ := levelSearchGo_correct xp 101 0 100 (by omega) (by omega)
      (by simp [xpCum]) hbig
    exact ⟨by simpa using ha, by omega, by omega, fun _ => hb⟩
  · have h100 : xpCum 100 ≤ xp :=
      le_trans (xpCum_mono (by norm_num)) (not_lt.mp hbig)
    rw [levelSearchGo_of_ge xp 101 0 100 (by omega) (by omega) h100]
    exact ⟨by simpa using h100, by omega, by omega, by omega⟩

/-- C9: the XP-to-level table assigns level N a requirement of
floor(100 · 1.15^(N-1)) XP, cumulatively summed, with level 1 at
cumulative 0 and level 2 at exactly 100; the computed level is always the
largest table level whose cumulative threshold is at most garageXP; in
particular 99 total XP gives level 1 and 100 total XP gives level 2. -/
theorem xpTable_and_level_lookup (xp : Nat) :
    (∀ level, xpForLevel level = ⌊(100 : ℚ) * (1.15 : ℚ) ^ (level - 1)⌋₊) ∧
    xpCum 0 = 0 ∧ xpCum 1 = 100 ∧
    calculateLevelFromXP 99 = 1 ∧ calculateLevelFromXP 100 = 2 ∧
    xpCum (calculateLevelFromXP xp - 1) ≤ xp ∧
    (calculateLevelFromXP xp ≤ 100 → xp < xpCum (calculateLevelFromXP xp)) :=
  ⟨xpForLevel_eq_floor, rfl, by decide, by decide, by decide,
   (calculateLevelFromXP_spec xp).1, (calculateLevelFromXP_spec xp).2.2.2⟩

/-- Witness for C9 at garageXP = 100: the level-2 threshold is met and the
level-3 threshold is not. -/
theorem xpTable_and_level_lookup_witness :
    calculateLevelFromXP 100 ≤ 100 ∧ (100 : Nat) < xpCum (calculateLevelFromXP 100) :=
  ⟨by decide, (xpTable_and_level_lookup 100).2.2.2.2.2.2 (by decide)⟩

/-! ## The level/tier invariant (C1) -/

/-- Every reachable state has a positive garage level and a tier derived
from the level by the source formula floor(garageLevel / 10) + 1. -/
lemma garage_level_tier_inv (s : GameState) (h : Reachable s) :
    1 ≤ s.garageLevel ∧ s.currentTier = s.garageLevel / 10 + 1 := by
  induction h with
  | init now => refine ⟨le_rfl, ?_⟩; simp [resetState]
  | addXP_step amount s hs ih =>
    rcases ih with ⟨ih1, ih2⟩
    by_cases h0 : amount = 0
    · simpa [addXP, h0] using ⟨ih1, ih2⟩
    · by_cases hup : s.garageLevel < calculateLevelFromXP (s.garageXP + amount)
      · by_cases htier :
            s.currentTier < calculateLevelFromXP (s.garageXP + amount) / 10 + 1
        · simp only [addXP, if_neg h0, getCurrentTier, checkCarUnlocks]
          simp [hup, htier]
          omega
        · simp only [addXP, if_neg h0, getCurrentTier, checkCarUnlocks]
          simp [hup, htier]
          omega
      · simp only [addXP, if_neg h0]
        simp [hup]
        exact ⟨ih1, ih2⟩
  | prestige_step now s hs ih =>
    by_cases h0 : calculateClaimableNip s = 0
    · simpa [prestige, h0] using ih
    · refine ⟨?_, ?_⟩ <;>
        simp [prestige, h0, recalc_garageLevel, recalc_currentTier, resetState]
  | load_step saveNow loadNow s hs ih =>
    rcases ih with ⟨ih1, ih2⟩
    have h1 : ¬ s.garageLevel = 0 := by omega
    have h2 : ¬ s.currentTier = 0 := by omega
    refine ⟨?_, ?_⟩ <;>
      simp [deserialize, serialize, recalc_garageLevel, recalc_currentTier, h1, h2] <;>
      omega

/-- C1 amended: in every reachable state (initial state, and after any
addXP, prestige, or load) the derived tier satisfies
currentTier = floor(garageLevel / 10) + 1 — not the claimed
floor((garageLevel - 1) / 10) + 1, which fails at level 10. -/
theorem tier_invariant_reachable (s : GameState) (h : Reachable s) :
    s.currentTier = s.garageLevel / 10 + 1 :=
  (garage_level_tier_inv s h).2

/-- Witness for the amended C1 invariant at the initial state. -/
theorem tier_invariant_reachable_witness :
    (resetState 0).currentTier = (resetState 0).garageLevel / 10 + 1 :=
  tier_invariant_reachable (resetState 0) (Reachable.init 0)

/-- The reachable state used to refute C1 as stated: award exactly the
cumulative XP of level 10 from a fresh state. -/
def levelTenState : GameState :=
  addXP (xpCum 9) (resetState 0)

/-- C1 counterexample: after reaching garage level 10 the tier is 2, but
the claimed formula floor((garageLevel - 1) / 10) + 1 evaluates to 1. -/
theorem tier_claim_counterexample :
    Reachable levelTenState ∧
    levelTenState.garageLevel = 10 ∧
    levelTenState.currentTier = 2 ∧
    (levelTenState.garageLevel - 1) / 10 + 1 = 1 ∧
    levelTenState.currentTier ≠ (levelTenState.garageLevel - 1) / 10 + 1 :=
  ⟨Reachable.addXP_step _ _ (Reachable.init 0), by decide, by decide, by decide, by decide⟩

/-! ## Claimable Nip (C3) -/

/-- C3: the claimable Nip is 0 below the base threshold of 1,000,000
lifetime earnings, equals max(0, floor(sqrt(lifetimeEarnings / base)) -
totalPrestigeEarned) at or above it (for states whose lifetime Nip
dominates the held Nip, as the source falls back to the held balance when
the lifetime counter is 0), is monotonic non-decreasing in
lifetimeEarnings with all other state fixed, and is never negative. -/
theorem claimableNip_spec (s : GameState)
    (hwf : s.totalPrestigeEarned = 0 → s.prestigeCurrency = 0) :
    (s.lifetimeEarnings < prestigeBaseCost → calculateClaimableNip s = 0) ∧
    (prestigeBaseCost ≤ s.lifetimeEarnings →
      (calculateClaimableNip s : ℤ) =
        max 0 ((Nat.sqrt (s.lifetimeEarnings / prestigeBaseCost) : ℤ)
          - (s.totalPrestigeEarned : ℤ))) ∧
    (∀ le1 le2 : Nat, le1 ≤ le2 →
      calculateClaimableNip { s with lifetimeEarnings := le1 } ≤
        calculateClaimableNip { s with lifetimeEarnings := le2 }) ∧
    0 ≤ calculateClaimableNip s := by
  have hmax : ∀ a b : Nat, ((a - b : Nat) : ℤ) = max 0 ((a : ℤ) - b) := by
    intro a b
    rcases le_total ((a : ℤ) - b) 0 with hc | hc
    · rw [max_eq_left hc]; omega
    · rw [max_eq_right hc]; omega
  refine ⟨fun h => by simp [calculateClaimableNip, h], fun h => ?_, fun le1 le2 h => ?_, Nat.zero_le _⟩
  · have hnlt : ¬ s.lifetimeEarnings < prestigeBaseCost := not_lt.mpr h
    by_cases ht : s.totalPrestigeEarned = 0
    · simp only [calculateClaimableNip, if_neg hnlt, if_pos ht, hwf ht, ht]
      simp [hmax (Nat.sqrt (s.lifetimeEarnings / prestigeBaseCost)) 0]
    · simp only [calculateClaimableNip, if_neg hnlt, if_neg ht]
      exact hmax _ _
  · simp only [calculateClaimableNip]
    split_ifs
    all_goals
      first
      | exact le_rfl
      | exact Nat.zero_le _
      | omega
      | (have hsq : Nat.sqrt (le1 / prestigeBaseCost) ≤ Nat.sqrt (le2 / prestigeBaseCost) :=
            Nat.sqrt_le_sqrt (Nat.div_le_div_right h)
         omega)

/-- Concrete state for the C3 witness: 5,000,000 lifetime earnings with
one Nip previously earned and held. -/
def nipWitnessState : GameState :=
  { resetState 0 with
    lifetimeEarnings := 5000000
    prestigeCurrency := 1
    totalPrestigeEarned := 1 }

/-- Witness for C3 at the concrete state: the well-formedness hypothesis
holds and the specification applies. -/
theorem claimableNip_spec_witness :
    (nipWitnessState.totalPrestigeEarned = 0 → nipWitnessState.prestigeCurrency = 0) ∧
    ((nipWitnessState.lifetimeEarnings < prestigeBaseCost →
        calculateClaimableNip nipWitnessState = 0) ∧
      (prestigeBaseCost ≤ nipWitnessState.lifetimeEarnings →
        (calculateClaimableNip nipWitnessState : ℤ) =
          max 0 ((Nat.sqrt (nipWitnessState.lifetimeEarnings / prestigeBaseCost) : ℤ)
            - (nipWitnessState.totalPrestigeEarned : ℤ))) ∧
      (∀ le1 le2 : Nat, le1 ≤ le2 →
        calculateClaimableNip { nipWitnessState with lifetimeEarnings := le1 } ≤
          calculateClaimableNip { nipWitnessState with lifetimeEarnings := le2 }) ∧
      0 ≤ calculateClaimableNip nipWitnessState) :=
  ⟨by decide, claimableNip_spec nipWitnessState (by decide)⟩

/-! ## The prestige reset and what survives it (C2) -/

/-- The frame condition of a successful prestige: the four carried-over
values are restored (prestige currency grown by the claim, lifetime Nip
grown by the claim, Nip upgrade levels, lifetime earnings) and every
other persistent field equals its run-start default. -/
def PrestigeOutcome (s sNew : GameState) : Prop :=
  sNew.currency = 0 ∧ sNew.totalEarned = 0 ∧ sNew.totalSpent = 0 ∧
  sNew.carsRepaired = 0 ∧ sNew.totalClicks = 0 ∧
  sNew.upgrades = (fun _ => 0) ∧ sNew.achievements = [] ∧
  sNew.workers = [] ∧ sNew.workerCounts = (fun _ => 0) ∧
  sNew.currentCar = none ∧ sNew.carQueue = [] ∧
  sNew.jobContracts = [] ∧ sNew.activeJobContract = none ∧
  sNew.contractsCompleted = 0 ∧ sNew.contractsFailed = 0 ∧
  sNew.garageXP = 0 ∧ sNew.garageLevel = 1 ∧ sNew.currentTier = 1 ∧
  sNew.unlockedCars = [CarId.hatchback] ∧
  sNew.prestigeCurrency = s.prestigeCurrency + calculateClaimableNip s ∧
  sNew.totalPrestigeEarned =
    (if s.totalPrestigeEarned = 0 then s.prestigeCurrency else s.totalPrestigeEarned)
      + calculateClaimableNip s ∧
  sNew.nipUpgrades = s.nipUpgrades ∧
  sNew.lifetimeEarnings = s.lifetimeEarnings

/-- C2: prestige with zero claimable Nip returns false and mutates
nothing; with positive claimable Nip it returns true and the new state
satisfies the reset-with-carryover frame condition `PrestigeOutcome`. -/
theorem prestige_spec (now : Nat) (s : GameState) :
    (calculateClaimableNip s = 0 → prestige now s = (false, s)) ∧
    (calculateClaimableNip s ≠ 0 →
      (prestige now s).1 = true ∧ PrestigeOutcome s (prestige now s).2) := by
  constructor
  · intro h
    simp [prestige, h]
  · intro h
    refine ⟨by simp [prestige, h], ?_⟩
    unfold PrestigeOutcome
    simp only [prestige, if_neg h, recalc_currency, recalc_totalEarned, recalc_totalSpent,
      recalc_carsRepaired, recalc_totalClicks, recalc_upgrades, recalc_achievements,
      recalc_workers, recalc_workerCounts, recalc_currentCar, recalc_carQueue,
      recalc_jobContracts, recalc_activeJobContract, recalc_contractsCompleted,
      recalc_contractsFailed, recalc_garageXP, recalc_garageLevel, recalc_currentTier,
      recalc_unlockedCars, recalc_prestigeCurrency, recalc_totalPrestigeEarned,
      recalc_nipUpgrades, recalc_lifetimeEarnings]
    simp [resetState]

/-! ## Frame lemmas for XP awards and currency credits -/

/-- Awarding XP adds exactly the awarded amount to the XP total. -/
lemma addXP_garageXP (amount : Nat) (s : GameState) :
    (addXP amount s).garageXP = s.garageXP + amount := by
  by_cases h : amount = 0
  · simp [addXP, h]
  · simp only [addXP, if_neg h]
    split_ifs <;> simp [checkCarUnlocks]

/-- Awarding XP leaves the XP multiplier untouched. -/
lemma addXP_xpMultiplier (amount : Nat) (s : GameState) :
    (addXP amount s).xpMultiplier = s.xpMultiplier := by
  by_cases h : amount = 0
  · simp [addXP, h]
  · simp only [addXP, if_neg h]
    split_ifs <;> simp [checkCarUnlocks]

/-- Awarding XP leaves the completed-contract counter untouched. -/
lemma addXP_contractsCompleted (amount : Nat) (s : GameState) :
    (addXP amount s).contractsCompleted = s.contractsCompleted := by
  by_cases h : amount = 0
  · simp [addXP, h]
  · simp only [addXP, if_neg h]
    split_ifs <;> simp [checkCarUnlocks]

/-- Awarding XP leaves the failed-contract counter untouched. -/
lemma addXP_contractsFailed (amount : Nat) (s : GameState) :
    (addXP amount s).contractsFailed = s.contractsFailed := by
  by_cases h : amount = 0
  · simp [addXP, h]
  · simp only [addXP, if_neg h]
    split_ifs <;> simp [checkCarUnlocks]

/-- Awarding XP leaves the active contract untouched. -/
lemma addXP_activeJobContract (amount : Nat) (s : GameState) :
    (addXP amount s).activeJobContract = s.activeJobContract := by
  by_cases h : amount = 0
  · simp [addXP, h]
  · simp only [addXP, if_neg h]
    split_ifs <;> simp [checkCarUnlocks]

/-- Awarding XP leaves the repaired-car counter untouched. -/
lemma addXP_carsRepaired (amount : Nat) (s : GameState) :
    (addXP amount s).carsRepaired = s.carsRepaired := by
  by_cases h : amount = 0
  · simp [addXP, h]
  · simp only [addXP, if_neg h]
    split_ifs <;> simp [checkCarUnlocks]

/-- Awarding XP leaves the current car untouched. -/
lemma addXP_currentCar (amount : Nat) (s : GameState) :
    (addXP amount s).currentCar = s.currentCar := by
  by_cases h : amount = 0
  · simp [addXP, h]
  · simp only [addXP, if_neg h]
    split_ifs <;> simp [checkCarUnlocks]

/-- Crediting currency leaves the XP total untouched. -/
lemma addCurrency_garageXP (amount : Nat) (s : GameState) :
    (addCurrency amount s).garageXP = s.garageXP := rfl

/-- Crediting currency leaves the XP multiplier untouched. -/
lemma addCurrency_xpMultiplier (amount : Nat) (s : GameState) :
    (addCurrency amount s).xpMultiplier = s.xpMultiplier := rfl

/-- Crediting currency leaves the completed-contract counter untouched. -/
lemma addCurrency_contractsCompleted (amount : Nat) (s : GameState) :
    (addCurrency amount s).contractsCompleted = s.contractsCompleted := rfl

/-- Crediting currency leaves the failed-contract counter untouched. -/
lemma addCurrency_contractsFailed (amount : Nat) (s : GameState) :
    (addCurrency amount s).contractsFailed = s.contractsFailed := rfl

/-- Crediting currency leaves the active contract untouched. -/
lemma addCurrency_activeJobContract (amount : Nat) (s : GameState) :
    (addCurrency amount s).activeJobContract = s.activeJobContract := rfl

/-- Refilling the job board leaves the completed counter untouched. -/
lemma refreshContracts_contractsCompleted (gen : Nat → Contract) (replaceAll : Bool)
    (s : GameState) :
    (refreshContracts gen replaceAll s).contractsCompleted = s.contractsCompleted := rfl

/-- Refilling the job board leaves the failed counter untouched. -/
lemma refreshContracts_contractsFailed (gen : Nat → Contract) (replaceAll : Bool)
    (s : GameState) :
    (refreshContracts gen replaceAll s).contractsFailed = s.contractsFailed := rfl

/-- Refilling the job board leaves the active contract untouched. -/
lemma refreshContracts_activeJobContract (gen : Nat → Contract) (replaceAll : Bool)
    (s : GameState) :
    (refreshContracts gen replaceAll s).activeJobContract = s.activeJobContract := rfl

/-- Refilling the job board leaves the current car untouched. -/
lemma refreshContracts_currentCar (gen : Nat → Contract) (replaceAll : Bool)
    (s : GameState) :
    (refreshContracts gen replaceAll s).currentCar = s.currentCar := rfl

/-- Refilling the job board leaves the car queue untouched. -/
lemma refreshContracts_carQueue (gen : Nat → Contract) (replaceAll : Bool)
    (s : GameState) :
    (refreshContracts gen replaceAll s).carQueue = s.carQueue := rfl

/-! ## The combo cap and the spawn interval ignore their meta-upgrades
(C6, C7) -/

/-- A fresh ledger owning one comboInstinct meta-upgrade level, after the
stat recalculation. -/
def comboInstinctState : GameState :=
  recalculateStats
    { resetState 0 with nipUpgrades := fun i => if i = NipUpgradeId.comboInstinct then 1 else 0 }

/-- C6 (code bug evidence): one comboInstinct level puts comboMaxBonus =
0.2 into the ledger, so the claimed cap maxCombo + comboMaxBonus is 2.2
and a click at combo 2.0 within the timeout should raise the combo to
2.1; but the ClickSystem caps at its own fixed maxCombo = 2.0 and never
reads the ledger's comboMaxBonus, so the combo stays at 2.0. -/
theorem combo_cap_ignores_comboMaxBonus :
    comboInstinctState.comboMaxBonus = 0.2 ∧
    handleClickCombo 2 0 = 2 ∧
    min ((2 : ℚ) + comboGainPerClick) (maxCombo + comboInstinctState.comboMaxBonus) = 2.1 ∧
    handleClickCombo 2 0 ≠
      min ((2 : ℚ) + comboGainPerClick) (maxCombo + comboInstinctState.comboMaxBonus) := by
  have hb : comboInstinctState.comboMaxBonus = 0.2 := by
    simp [comboInstinctState, recalculateStats, nipUpgradeIdList, upgradeIdList,
      applyNipUpgradeEffect, applyUpgradeEffect, NipUpgradeData, UpgradeData, baseDerived,
      resetState]
    norm_num
  have hclick : handleClickCombo 2 0 = 2 := by
    simp [handleClickCombo, comboTimeout, comboGainPerClick, maxCombo]
    norm_num
  have hmin : min ((2 : ℚ) + comboGainPerClick) (maxCombo + comboInstinctState.comboMaxBonus)
      = 2.1 := by
    rw [hb]
    norm_num [comboGainPerClick, maxCombo]
  refine ⟨hb, hclick, hmin, ?_⟩
  rw [hclick, hmin]
  norm_num

/-- A fresh ledger owning one quickDispatch meta-upgrade level, after the
stat recalculation. -/
def quickDispatchState : GameState :=
  recalculateStats
    { resetState 0 with nipUpgrades := fun i => if i = NipUpgradeId.quickDispatch then 1 else 0 }

/-- C7 (code bug evidence): one quickDispatch level puts
queueSpawnMultiplier = 0.92 into the ledger, so the claimed interval
max(2000, 8000·(1-0)·0.92) is 7360 ms with no workers; but
CarQueueSystem.getSpawnInterval never consults queueSpawnMultiplier and
returns 8000 ms. -/
theorem spawnInterval_ignores_queueSpawnMultiplier :
    quickDispatchState.queueSpawnMultiplier = 0.92 ∧
    getSpawnInterval quickDispatchState = 8000 ∧
    spawnIntervalSpec quickDispatchState = 7360 ∧
    getSpawnInterval quickDispatchState ≠ spawnIntervalSpec quickDispatchState := by
  have hw : quickDispatchState.workers = [] := rfl
  have hq : quickDispatchState.queueSpawnMultiplier = 0.92 := by
    simp [quickDispatchState, recalculateStats, nipUpgradeIdList, upgradeIdList,
      applyNipUpgradeEffect, applyUpgradeEffect, NipUpgradeData, UpgradeData, baseDerived,
      resetState]
    rw [max_eq_right (by norm_num)]
    norm_num
  have hcode : getSpawnInterval quickDispatchState = 8000 := by
    simp [getSpawnInterval, hw, baseSpawnInterval, minSpawnInterval]
    norm_num
  have hspec : spawnIntervalSpec quickDispatchState = 7360 := by
    simp [spawnIntervalSpec, hw, hq, baseSpawnInterval, minSpawnInterval]
    norm_num
  refine ⟨hq, hcode, hspec, ?_⟩
  rw [hcode, hspec]
  norm_num

/-! ## Upgrade cost curves (C8) -/

/-- Cost is non-decreasing in the level whenever the growth factor is at
least 1. -/
lemma cost_mono (u : UpgradeDef) (hg : 1 ≤ u.costGrowth) (L : Nat) :
    calculateUpgradeCost u L ≤ calculateUpgradeCost u (L + 1) := by
  unfold calculateUpgradeCost
  have hpow : u.costGrowth ^ L ≤ u.costGrowth ^ (L + 1) :=
    pow_le_pow_right₀ hg (Nat.le_succ L)
  exact Nat.floor_le_floor (mul_le_mul_of_nonneg_left hpow (Nat.cast_nonneg _))

/-- Cost is strictly increasing at a level where one growth step gains at
least one whole unit. -/
lemma cost_strict (u : UpgradeDef) (hg : 1 ≤ u.costGrowth) (L : Nat)
    (hb : 1 ≤ (u.baseCost : ℚ) * (u.costGrowth - 1) * u.costGrowth ^ L) :
    calculateUpgradeCost u L < calculateUpgradeCost u (L + 1) := by
  unfold calculateUpgradeCost
  have h0 : (0 : ℚ) ≤ (u.baseCost : ℚ) * u.costGrowth ^ L :=
    mul_nonneg (Nat.cast_nonneg _) (pow_nonneg (by linarith) _)
  have key : (u.baseCost : ℚ) * u.costGrowth ^ L + 1
      ≤ (u.baseCost : ℚ) * u.costGrowth ^ (L + 1) := by
    have hexp : (u.baseCost : ℚ) * u.costGrowth ^ (L + 1)
        = (u.baseCost : ℚ) * u.costGrowth ^ L
          + (u.baseCost : ℚ) * (u.costGrowth - 1) * u.costGrowth ^ L := by
      rw [pow_succ]
      ring
    rw [hexp]
    linarith
  calc ⌊(u.baseCost : ℚ) * u.costGrowth ^ L⌋₊
      < ⌊(u.baseCost : ℚ) * u.costGrowth ^ L⌋₊ + 1 := Nat.lt_succ_self _
    _ = ⌊(u.baseCost : ℚ) * u.costGrowth ^ L + 1⌋₊ := (Nat.floor_add_one h0).symm
    _ ≤ ⌊(u.baseCost : ℚ) * u.costGrowth ^ (L + 1)⌋₊ := Nat.floor_le_floor key

/-- Strictness at every level once the base times the growth gain reaches
one whole unit. -/
lemma cost_strict_of_base (u : UpgradeDef) (hg : 1 ≤ u.costGrowth)
    (hb : 1 ≤ (u.baseCost : ℚ) * (u.costGrowth - 1)) (L : Nat) :
    calculateUpgradeCost u L < calculateUpgradeCost u (L + 1) := by
  apply cost_strict u hg L
  have hpow : (1 : ℚ) ≤ u.costGrowth ^ L := by
    simpa using pow_le_pow_right₀ hg (Nat.zero_le L)
  calc (1 : ℚ) ≤ (u.baseCost : ℚ) * (u.costGrowth - 1) := hb
    _ ≤ (u.baseCost : ℚ) * (u.costGrowth - 1) * u.costGrowth ^ L :=
        le_mul_of_one_le_right (by linarith) hpow

/-- C8 counterexample: the sharpenedPaws Nip upgrade (baseCost 1, growth
1.85) costs 1 at level 0 and still 1 at level 1, so the purchase cost is
not strictly increasing in the level. -/
theorem upgradeCost_strict_counterexample :
    calculateNipUpgradeCost (NipUpgradeData NipUpgradeId.sharpenedPaws) 0 = 1 ∧
    calculateNipUpgradeCost (NipUpgradeData NipUpgradeId.sharpenedPaws) 1 = 1 ∧
    ¬ calculateNipUpgradeCost (NipUpgradeData NipUpgradeId.sharpenedPaws) 0 <
        calculateNipUpgradeCost (NipUpgradeData NipUpgradeId.sharpenedPaws) 1 := by
  have h0 : calculateNipUpgradeCost (NipUpgradeData NipUpgradeId.sharpenedPaws) 0 = 1 := by
    unfold calculateNipUpgradeCost NipUpgradeData
    norm_num
  have h1 : calculateNipUpgradeCost (NipUpgradeData NipUpgradeId.sharpenedPaws) 1 = 1 := by
    unfold calculateNipUpgradeCost NipUpgradeData
    rw [pow_one]
    apply natFloor_eq <;> norm_num
  exact ⟨h0, h1, by omega⟩

/-- C8 amended: for every upgrade definition in both shops and every level
L ≥ 0, the purchase cost equals floor(baseCost * costGrowth^L) (identical
formula in both shops) and is non-decreasing in L; it is strictly
increasing in L everywhere except for sharpenedPaws between levels 0 and
1, where both costs are 1. -/
theorem upgradeCost_formula_and_growth (u : UpgradeDef) (hu : u ∈ allUpgradeDefs) (L : Nat) :
    calculateUpgradeCost u L = ⌊(u.baseCost : ℚ) * u.costGrowth ^ L⌋₊ ∧
    calculateNipUpgradeCost u L = calculateUpgradeCost u L ∧
    calculateUpgradeCost u L ≤ calculateUpgradeCost u (L + 1) ∧
    ((u ≠ NipUpgradeData NipUpgradeId.sharpenedPaws ∨ 1 ≤ L) →
      calculateUpgradeCost u L < calculateUpgradeCost u (L + 1)) := by
  simp only [allUpgradeDefs, getUpgradeList, getNipUpgradeList, List.mem_append,
    List.mem_cons, List.not_mem_nil, or_false] at hu
  refine ⟨rfl, rfl, ?_, ?_⟩
  · rcases hu with h | h <;> rcases h with rfl | rfl | rfl | rfl | rfl | rfl | rfl | rfl <;>
      apply cost_mono <;> norm_num [UpgradeData, NipUpgradeData]
  · intro hL
    rcases hu with h | h
    · rcases h with rfl | rfl | rfl | rfl | rfl | rfl | rfl | rfl <;>
        apply cost_strict_of_base <;> norm_num [UpgradeData, NipUpgradeData]
    · rcases h with rfl | rfl | rfl | rfl | rfl | rfl
      · rcases hL with habs | hL1
        · exact absurd rfl habs
        · apply cost_strict _ (by norm_num [NipUpgradeData]) L
          have hpow : (1.85 : ℚ) ≤ (1.85 : ℚ) ^ L := by
            calc (1.85 : ℚ) = 1.85 ^ 1 := (pow_one _).symm
              _ ≤ 1.85 ^ L := pow_le_pow_right₀ (by norm_num) hL1
          norm_num [NipUpgradeData]
          nlinarith
      all_goals apply cost_strict_of_base <;> norm_num [UpgradeData, NipUpgradeData]

/-- Witness for the amended C8 at the wrench upgrade and level 0. -/
theorem upgradeCost_formula_and_growth_witness :
    (UpgradeData UpgradeId.wrench ∈ allUpgradeDefs) ∧
    (calculateUpgradeCost (UpgradeData UpgradeId.wrench) 0 =
        ⌊((UpgradeData UpgradeId.wrench).baseCost : ℚ)
          * (UpgradeData UpgradeId.wrench).costGrowth ^ 0⌋₊ ∧
      calculateNipUpgradeCost (UpgradeData UpgradeId.wrench) 0 =
        calculateUpgradeCost (UpgradeData UpgradeId.wrench) 0 ∧
      calculateUpgradeCost (UpgradeData UpgradeId.wrench) 0 ≤
        calculateUpgradeCost (UpgradeData UpgradeId.wrench) 1 ∧
      ((UpgradeData UpgradeId.wrench ≠ NipUpgradeData NipUpgradeId.sharpenedPaws ∨ 1 ≤ 0) →
        calculateUpgradeCost (UpgradeData UpgradeId.wrench) 0 <
          calculateUpgradeCost (UpgradeData UpgradeId.wrench) 1)) :=
  ⟨by simp [allUpgradeDefs, getUpgradeList],
   upgradeCost_formula_and_growth (UpgradeData UpgradeId.wrench)
    (by simp [allUpgradeDefs, getUpgradeList]) 0⟩

/-- Concrete state for the C2 witness: enough lifetime earnings for a
positive claim. -/
def prestigeWitnessState : GameState :=
  { resetState 0 with
    lifetimeEarnings := 4000000
    currency := 123
    garageXP := 250
    garageLevel := 2 }

/-- Witness for C2: the claim at the concrete state is positive and the
frame condition holds there. -/
theorem prestige_spec_witness :
    calculateClaimableNip prestigeWitnessState ≠ 0 ∧
    ((prestige 0 prestigeWitnessState).1 = true ∧
      PrestigeOutcome prestigeWitnessState (prestige 0 prestigeWitnessState).2) :=
  ⟨by
    have h4 : Nat.sqrt 4 = 2 := natSqrt_eq 4 2 (by norm_num) (by norm_num)
    simp [calculateClaimableNip, prestigeWitnessState, resetState, prestigeBaseCost, h4],
   (prestige_spec 0 prestigeWitnessState).2
    (by
      have h4 : Nat.sqrt 4 = 2 := natSqrt_eq 4 2 (by norm_num) (by norm_num)
      simp [calculateClaimableNip, prestigeWitnessState, resetState, prestigeBaseCost, h4])⟩

/-! ## Save/load round trip (C4) -/

/-- The repair cost the car constructor plus tier scaling produce for a
car type at a tier (what deserialization reconstructs). -/
def tierScaledRepairCost (id : CarId) (tier : Nat) : Nat :=
  if tier ≤ 1 then (CarData id).repairCost
  else ⌊((CarData id).repairCost : ℚ) * (1 + ((tier : ℚ) - 1) * 0.5)⌋₊

def tierScaledBaseValue (id : CarId) (tier : Nat) : Nat :=
  if tier ≤ 1 then (CarData id).baseValue
  else ⌊((CarData id).baseValue : ℚ) * (1 + ((tier : ℚ) - 1) * 0.5)⌋₊

lemma car_roundTrip (now : Nat) (c : Car) (ht : c.tier ≠ 0) :
    (Car.deserialize now (Car.serialize c)).id = c.id ∧
    (Car.deserialize now (Car.serialize c)).repairProgress = c.repairProgress ∧
    (Car.deserialize now (Car.serialize c)).tier = c.tier ∧
    (Car.deserialize now (Car.serialize c)).contractMeta = c.contractMeta ∧
    (Car.deserialize now (Car.serialize c)).repairCost = tierScaledRepairCost c.id c.tier ∧
    (Car.deserialize now (Car.serialize c)).baseValue = tierScaledBaseValue c.id c.tier := by
  simp only [Car.deserialize, Car.serialize, mkCar, if_neg ht]
  by_cases h1 : 1 < c.tier
  · have h2 : ¬ c.tier ≤ 1 := by omega
    simp [h1, Car.applyTierScaling, h2, tierScaledRepairCost, tierScaledBaseValue]
  · have h2 : c.tier ≤ 1 := by omega
    simp [h1, tierScaledRepairCost, tierScaledBaseValue, h2]
/-- The scalar state a save/load round trip preserves exactly. -/
def RoundTripAgrees (now2 : Nat) (s rt : GameState) : Prop :=
  rt.currency = s.currency ∧
  rt.totalEarned = s.totalEarned ∧
  rt.totalSpent = s.totalSpent ∧
  rt.totalClicks = s.totalClicks ∧
  rt.carsRepaired = s.carsRepaired ∧
  rt.upgrades = s.upgrades ∧
  rt.nipUpgrades = s.nipUpgrades ∧
  rt.achievements = s.achievements ∧
  rt.workerCounts = s.workerCounts ∧
  rt.garageXP = s.garageXP ∧
  rt.garageLevel = s.garageLevel ∧
  rt.currentTier = s.currentTier ∧
  rt.unlockedCars = s.unlockedCars ∧
  rt.prestigeCurrency = s.prestigeCurrency ∧
  rt.totalPrestigeEarned = s.totalPrestigeEarned ∧
  rt.lifetimeEarnings = s.lifetimeEarnings ∧
  rt.jobContracts = s.jobContracts ∧
  rt.activeJobContract = s.activeJobContract ∧
  rt.contractsCompleted = s.contractsCompleted ∧
  rt.contractsFailed = s.contractsFailed ∧
  rt.workers.map (fun w => (w.id, w.totalRepairs)) =
    s.workers.map (fun w => (w.id, w.totalRepairs)) ∧
  rt.currentCar = s.currentCar.map (fun c => Car.deserialize now2 (Car.serialize c)) ∧
  rt.carQueue = s.carQueue.map (fun c => Car.deserialize now2 (Car.serialize c))

/-- What reloading does to a single car: identity, progress, tier and
contract metadata survive; repair cost and base value are recomputed from
the car definition and tier, so any contract repair-cost scaling is lost. -/
def CarReloadSpec (now2 : Nat) : Prop :=
  ∀ c : Car, c.tier ≠ 0 →
    (Car.deserialize now2 (Car.serialize c)).id = c.id ∧
    (Car.deserialize now2 (Car.serialize c)).repairProgress = c.repairProgress ∧
    (Car.deserialize now2 (Car.serialize c)).tier = c.tier ∧
    (Car.deserialize now2 (Car.serialize c)).contractMeta = c.contractMeta ∧
    (Car.deserialize now2 (Car.serialize c)).repairCost = tierScaledRepairCost c.id c.tier ∧
    (Car.deserialize now2 (Car.serialize c)).baseValue = tierScaledBaseValue c.id c.tier

/-- C4 amended: deserialize(serialize(state)) reproduces the state up to
elapsed-time-dependent fields and each car\'s repairCost/baseValue, which
are recomputed from the static car definition and tier — so a contract
car\'s scaled repair cost does not survive the round trip.  All scalar
progress, upgrade, prestige and contract state is preserved exactly (for
save data of well-formed states: positive level and tier, lifetime
accumulators dominating their fallbacks). -/
theorem roundTrip_equiv (now1 now2 : Nat) (s : GameState)
    (hlvl : s.garageLevel ≠ 0) (htier : s.currentTier ≠ 0)
    (htpe : s.totalPrestigeEarned = 0 → s.prestigeCurrency = 0)
    (hle : s.lifetimeEarnings = 0 → s.totalEarned = 0) :
    RoundTripAgrees now2 s (deserialize now2 (serialize now1 s)) ∧ CarReloadSpec now2 := by
  unfold RoundTripAgrees CarReloadSpec
  refine ⟨?_, fun c hc => car_roundTrip now2 c hc⟩
  refine ⟨?_, ?_, ?_, ?_, ?_, ?_, ?_, ?_, ?_, ?_, ?_, ?_, ?_, ?_, ?_, ?_, ?_, ?_, ?_, ?_,
    ?_, ?_, ?_⟩ <;>
    simp only [deserialize, serialize, recalc_currency, recalc_totalEarned, recalc_totalSpent,
      recalc_totalClicks, recalc_carsRepaired, recalc_upgrades, recalc_nipUpgrades,
      recalc_achievements, recalc_workerCounts, recalc_garageXP, recalc_garageLevel,
      recalc_currentTier, recalc_unlockedCars, recalc_prestigeCurrency,
      recalc_totalPrestigeEarned, recalc_lifetimeEarnings, recalc_jobContracts,
      recalc_activeJobContract, recalc_contractsCompleted, recalc_contractsFailed,
      recalc_workers, recalc_currentCar, recalc_carQueue]
  · simp [hlvl]
  · simp [htier]
  · by_cases h : s.totalPrestigeEarned = 0
    · simp [h, htpe h]
    · simp [h]
  · by_cases h : s.lifetimeEarnings = 0
    · simp [h, hle h]
    · simp [h]
  · simp only [List.map_map]
    rfl
  · simp only [Option.map_map]
    rfl
  · simp only [List.map_map]
    rfl

/-- Offer behind the C4 counterexample contract car. -/
def c4Offer : Contract :=
  { id := 9
    carId := .hatchback
    rarity := .common
    repairMultiplier := 1.1
    payoutMultiplier := 1.5
    bonusXP := 10
    durationMs := 60000
    createdAt := 0 }

/-- Active contract behind the C4 counterexample contract car. -/
def c4Active : ActiveContract :=
  { toContract := c4Offer, acceptedAt := 0, expiresAt := 60000 }

/-- The C4 counterexample state: a fresh run that accepted the contract,
whose spawned car has repair cost 55 = floor(50 * 1.1). -/
def c4State : GameState :=
  spawnContractCar 0 c4Active { resetState 0 with activeJobContract := some c4Active }

/-- C4 counterexample: the contract car\'s repairCost is 55 before the
round trip and 50 after it, so deserialize(serialize(state)) does not
reproduce each car\'s repairCost as claimed. -/
theorem roundTrip_counterexample :
    c4State.currentCar.map Car.repairCost = some 55 ∧
    (deserialize 0 (serialize 0 c4State)).currentCar.map Car.repairCost = some 50 ∧
    (deserialize 0 (serialize 0 c4State)).currentCar.map Car.repairCost ≠
      c4State.currentCar.map Car.repairCost := by
  have h55 : ⌊(50 : ℚ) * 1.1⌋₊ = 55 := by
    apply natFloor_eq <;> norm_num
  have h1 : c4State.currentCar.map Car.repairCost = some 55 := by
    simp [c4State, spawnContractCar, mkContractCar, mkCar, Car.applyTierScaling, CarData,
      getCurrentTier, resetState, c4Active, c4Offer, h55]
  have h2 : (deserialize 0 (serialize 0 c4State)).currentCar.map Car.repairCost = some 50 := by
    simp [deserialize, serialize, recalc_currentCar, Car.serialize, Car.deserialize, mkCar,
      CarData, c4State, spawnContractCar, mkContractCar, Car.applyTierScaling,
      getCurrentTier, resetState, c4Active, c4Offer]
  refine ⟨h1, h2, ?_⟩
  rw [h1, h2]
  simp

/-- The concrete well-formed state used by the C4 witness. -/
def roundTripWitnessState : GameState :=
  { resetState 0 with
    currentCar := some (mkCar .sedan 1)
    carQueue := [mkCar .suv 1]
    currency := 42
    garageXP := 7 }

/-- Witness for the amended C4 at a concrete well-formed state. -/
theorem roundTrip_equiv_witness :
    (roundTripWitnessState.garageLevel ≠ 0) ∧
    (roundTripWitnessState.currentTier ≠ 0) ∧
    (roundTripWitnessState.totalPrestigeEarned = 0 →
      roundTripWitnessState.prestigeCurrency = 0) ∧
    (roundTripWitnessState.lifetimeEarnings = 0 → roundTripWitnessState.totalEarned = 0) ∧
    (RoundTripAgrees 1 roundTripWitnessState
        (deserialize 1 (serialize 0 roundTripWitnessState)) ∧ CarReloadSpec 1) :=
  ⟨by decide, by decide, by decide, by decide,
   roundTrip_equiv 0 1 roundTripWitnessState (by decide) (by decide) (by decide) (by decide)⟩

/-! ## Accepting a contract with a full queue (C10) -/

/-- C10: accepting a contract while a current car exists and the car
queue already holds its maximum of 5 cars discards the last queued car
and inserts the contract car at the front: the queue-length cap of 5 is
preserved, the current car is untouched, and the previously last queued
car is no longer anywhere in the state. -/
theorem acceptContract_full_queue (gen : Nat → Contract) (now contractId : Nat)
    (s : GameState) (c0 : Car) (index : Nat) (contract : Contract)
    (hactive : s.activeJobContract = none)
    (hcur : s.currentCar = some c0)
    (hq : s.carQueue.length = 5)
    (hfind : s.jobContracts.findIdx? (fun c => c.id == contractId) = some index)
    (hget : s.jobContracts[index]? = some contract) :
    (acceptContract gen now contractId s).1 = true ∧
    (acceptContract gen now contractId s).2.currentCar = some c0 ∧
    (acceptContract gen now contractId s).2.carQueue =
      mkContractCar now (getCurrentTier s)
        { toContract := contract, acceptedAt := now, expiresAt := now + contract.durationMs }
        :: s.carQueue.dropLast ∧
    (acceptContract gen now contractId s).2.carQueue.length = 5 := by
  have hlen : s.carQueue.dropLast.length = 4 := by
    simp [List.length_dropLast, hq]
  simp only [acceptContract, hactive, Option.isSome_none, Bool.false_eq_true, if_false,
    hfind, hget, spawnContractCar, hcur, refreshContracts_currentCar,
    refreshContracts_carQueue, getCurrentTier]
  simp [hq, hlen]

/-- The contract offer used by the C10 witness. -/
def acceptWitnessContract : Contract :=
  { id := 7
    carId := .sedan
    rarity := .common
    repairMultiplier := 1.2
    payoutMultiplier := 1.5
    bonusXP := 12
    durationMs := 60000
    createdAt := 0 }

/-- The state used by the C10 witness: a current car, a full queue of 5
cars, one offer on the board, no active contract. -/
def acceptWitnessState : GameState :=
  { resetState 0 with
    currentCar := some (mkCar .hatchback 0)
    carQueue := [mkCar .hatchback 0, mkCar .sedan 0, mkCar .suv 0,
                 mkCar .hatchback 0, mkCar .sedan 0]
    jobContracts := [acceptWitnessContract] }

/-- Witness for C10 at a concrete full-queue state. -/
theorem acceptContract_full_queue_witness :
    acceptWitnessState.activeJobContract = none ∧
    acceptWitnessState.currentCar = some (mkCar .hatchback 0) ∧
    acceptWitnessState.carQueue.length = 5 ∧
    acceptWitnessState.jobContracts.findIdx? (fun c => c.id == 7) = some 0 ∧
    acceptWitnessState.jobContracts[0]? = some acceptWitnessContract ∧
    ((acceptContract (fun _ => acceptWitnessContract) 0 7 acceptWitnessState).1 = true ∧
      (acceptContract (fun _ => acceptWitnessContract) 0 7 acceptWitnessState).2.currentCar =
        some (mkCar .hatchback 0) ∧
      (acceptContract (fun _ => acceptWitnessContract) 0 7 acceptWitnessState).2.carQueue =
        mkContractCar 0 (getCurrentTier acceptWitnessState)
          { toContract := acceptWitnessContract, acceptedAt := 0,
            expiresAt := 0 + acceptWitnessContract.durationMs }
          :: acceptWitnessState.carQueue.dropLast ∧
      (acceptContract (fun _ => acceptWitnessContract) 0 7 acceptWitnessState).2.carQueue.length
        = 5) :=
  ⟨rfl, rfl, rfl, rfl, rfl,
   acceptContract_full_queue (fun _ => acceptWitnessContract) 0 7 acceptWitnessState
    (mkCar .hatchback 0) 0 acceptWitnessContract rfl rfl rfl rfl rfl⟩

/-! ## Repair completion with contract metadata (C5) -/

/-- C5: when completeRepair fires on the current car carrying contract
metadata for the active contract, then — completed in time (not marked
expired and now at or before expiresAt) — the payment
floor(baseValue · carValueMultiplier · payoutBonus) is further scaled by
the contract's payoutMultiplier (and floored), the contract's bonus XP
scaled by the XP multiplier and floored is awarded on top of the base
repair XP, and the job board counts the contract completed; finished
after expiresAt or already marked expired, the payment stays unscaled,
no bonus XP is awarded, and the contract is counted failed (late). -/
theorem completeRepair_contract_outcome (now : Nat) (isAuto : Bool) (cb : ℚ)
    (gen : Nat → Contract) (s : GameState) (car : Car) (meta : ContractMeta)
    (active : ActiveContract)
    (hcar : s.currentCar = some car)
    (hmeta : car.contractMeta = some meta)
    (hact : s.activeJobContract = some active)
    (hid : active.id = meta.id) :
    ∃ ev s1, completeRepair now isAuto cb s = some (ev, s1) ∧
      ev.car = car ∧
      ((meta.expired = false ∧ now ≤ meta.expiresAt) →
        ev.payment =
          ⌊((⌊(car.getValue 1 : ℚ) * getCarValueMultiplier s * cb⌋₊ : ℚ))
            * meta.payoutMultiplier⌋₊ ∧
        s1.garageXP = s.garageXP + ⌊(meta.bonusXP : ℚ) * s.xpMultiplier⌋₊
          + repairBaseXP car s.xpMultiplier ∧
        (handleCarRepaired gen ev s1).contractsCompleted = s.contractsCompleted + 1 ∧
        (handleCarRepaired gen ev s1).contractsFailed = s.contractsFailed ∧
        (handleCarRepaired gen ev s1).activeJobContract = none) ∧
      ((meta.expired = true ∨ meta.expiresAt < now) →
        ev.payment = ⌊(car.getValue 1 : ℚ) * getCarValueMultiplier s * cb⌋₊ ∧
        s1.garageXP = s.garageXP + repairBaseXP car s.xpMultiplier ∧
        (handleCarRepaired gen ev s1).contractsFailed = s.contractsFailed + 1 ∧
        (handleCarRepaired gen ev s1).contractsCompleted = s.contractsCompleted ∧
        (handleCarRepaired gen ev s1).activeJobContract = none) := by
  simp only [completeRepair, hcar, hmeta]
  refine ⟨_, _, rfl, rfl, ?_, ?_⟩
  · rintro ⟨hex, hle⟩
    simp only [hex, hle, Bool.not_false, decide_True, Bool.and_self, decide_eq_true hle,
      if_true]
    by_cases hb : 0 < meta.bonusXP
    · simp only [if_pos hb]
      refine ⟨trivial, ?_, ?_, ?_, ?_⟩ <;>
        simp [handleCarRepaired, hmeta, hact, hid, addXP_garageXP, addXP_xpMultiplier,
          addXP_activeJobContract, addXP_contractsCompleted, addXP_contractsFailed,
          addCurrency_garageXP, addCurrency_xpMultiplier, addCurrency_activeJobContract,
          addCurrency_contractsCompleted, addCurrency_contractsFailed,
          refreshContracts_contractsCompleted, refreshContracts_contractsFailed,
          refreshContracts_activeJobContract]
    · have hb0 : meta.bonusXP = 0 := by omega
      simp only [if_neg hb]
      refine ⟨trivial, ?_, ?_, ?_, ?_⟩ <;>
        simp [hb0, handleCarRepaired, hmeta, hact, hid, addXP_garageXP, addXP_xpMultiplier,
          addXP_activeJobContract, addXP_contractsCompleted, addXP_contractsFailed,
          addCurrency_garageXP, addCurrency_xpMultiplier, addCurrency_activeJobContract,
          addCurrency_contractsCompleted, addCurrency_contractsFailed,
          refreshContracts_contractsCompleted, refreshContracts_contractsFailed,
          refreshContracts_activeJobContract]
  · intro h
    have hcit : (!meta.expired && decide (now ≤ meta.expiresAt)) = false := by
      rcases h with h | h
      · simp [h]
      · simp [Nat.not_le.mpr h]
    simp only [hcit, Bool.false_eq_true, if_false, Nat.lt_irrefl]
    refine ⟨?_, ?_, ?_, ?_, ?_⟩ <;>
      simp [handleCarRepaired, hmeta, hact, hid, addXP_garageXP, addXP_xpMultiplier,
        addXP_activeJobContract, addXP_contractsCompleted, addXP_contractsFailed,
        addCurrency_garageXP, addCurrency_xpMultiplier, addCurrency_activeJobContract,
        addCurrency_contractsCompleted, addCurrency_contractsFailed,
        refreshContracts_contractsCompleted, refreshContracts_contractsFailed,
        refreshContracts_activeJobContract]

/-- Contract offer used by the C5 witness. -/
def repairWitnessOffer : Contract :=
  { id := 3
    carId := .hatchback
    rarity := .common
    repairMultiplier := 1.2
    payoutMultiplier := 1.5
    bonusXP := 10
    durationMs := 1000
    createdAt := 0 }

/-- Active contract used by the C5 witness. -/
def repairWitnessActive : ActiveContract :=
  { toContract := repairWitnessOffer, acceptedAt := 0, expiresAt := 1000 }

/-- Contract metadata tag used by the C5 witness. -/
def repairWitnessMeta : ContractMeta :=
  { id := 3, payoutMultiplier := 1.5, bonusXP := 10, expiresAt := 1000, expired := false }

/-- Fully repaired contract car used by the C5 witness. -/
def repairWitnessCar : Car :=
  { mkCar .hatchback 0 with contractMeta := some repairWitnessMeta, repairProgress := 50 }

/-- State used by the C5 witness: the contract car is current and its
contract is active. -/
def repairWitnessState : GameState :=
  { resetState 0 with
    currentCar := some repairWitnessCar
    activeJobContract := some repairWitnessActive }

/-- Witness for C5 at a concrete in-progress contract, completed at time
500 of a deadline of 1000. -/
theorem completeRepair_contract_outcome_witness :
    repairWitnessState.currentCar = some repairWitnessCar ∧
    repairWitnessCar.contractMeta = some repairWitnessMeta ∧
    repairWitnessState.activeJobContract = some repairWitnessActive ∧
    repairWitnessActive.id = repairWitnessMeta.id ∧
    (∃ ev s1, completeRepair 500 false 1 repairWitnessState = some (ev, s1) ∧
      ev.car = repairWitnessCar ∧
      ((repairWitnessMeta.expired = false ∧ 500 ≤ repairWitnessMeta.expiresAt) →
        ev.payment =
          ⌊((⌊(repairWitnessCar.getValue 1 : ℚ) * getCarValueMultiplier repairWitnessState
              * 1⌋₊ : ℚ)) * repairWitnessMeta.payoutMultiplier⌋₊ ∧
        s1.garageXP = repairWitnessState.garageXP
          + ⌊(repairWitnessMeta.bonusXP : ℚ) * repairWitnessState.xpMultiplier⌋₊
          + repairBaseXP repairWitnessCar repairWitnessState.xpMultiplier ∧
        (handleCarRepaired (fun _ => repairWitnessOffer) ev s1).contractsCompleted =
          repairWitnessState.contractsCompleted + 1 ∧
        (handleCarRepaired (fun _ => repairWitnessOffer) ev s1).contractsFailed =
          repairWitnessState.contractsFailed ∧
        (handleCarRepaired (fun _ => repairWitnessOffer) ev s1).activeJobContract = none) ∧
      ((repairWitnessMeta.expired = true ∨ repairWitnessMeta.expiresAt < 500) →
        ev.payment = ⌊(repairWitnessCar.getValue 1 : ℚ)
          * getCarValueMultiplier repairWitnessState * 1⌋₊ ∧
        s1.garageXP = repairWitnessState.garageXP
          + repairBaseXP repairWitnessCar repairWitnessState.xpMultiplier ∧
        (handleCarRepaired (fun _ => repairWitnessOffer) ev s1).contractsFailed =
          repairWitnessState.contractsFailed + 1 ∧
        (handleCarRepaired (fun _ => repairWitnessOffer) ev s1).contractsCompleted =
          repairWitnessState.contractsCompleted ∧
        (handleCarRepaired (fun _ => repairWitnessOffer) ev s1).activeJobContract = none)) :=
  ⟨rfl, rfl, rfl, rfl,
   completeRepair_contract_outcome 500 false 1 (fun _ => repairWitnessOffer)
    repairWitnessState repairWitnessCar repairWitnessMeta repairWitnessActive
    rfl rfl rfl rfl⟩

end GatoGarage
